import Mathlib

/-!
Verification development for the Blockies multiplayer relay and shared-board
engine (`game.js`).  The definitions below are shallow embeddings of the
source functions, keeping the source's names and structure; JavaScript 32-bit
integer coercions are made explicit with `% 4294967296`, JS `Set` objects are
modelled as insertion-ordered duplicate-free lists, and nondeterministic
inputs (random pieces, fresh ids) are passed as explicit parameters.
-/

/-- The seven tetromino identifiers of `PIECE_ORDER`. -/
inductive Piece where
  | I | O | T | S | Z | J | L
deriving DecidableEq, Inhabited

/-- `PIECE_ORDER = ['I', 'O', 'T', 'S', 'Z', 'J', 'L']`. -/
def PIECE_ORDER : Array Piece := #[.I, .O, .T, .S, .Z, .J, .L]

/-- One step of `mulberry32`: given the accumulator `t`, return the updated
accumulator and the 32-bit output numerator (the JS generator returns
`out / 4294967296`).  JS `Math.imul` is multiplication mod 2^32 on bit
patterns, `>>>` is an unsigned shift of the value coerced to uint32, and the
float addition `r + Math.imul(...)` is exact, so only its value mod 2^32
reaches the following xor.  The accumulator `t += 0x6D2B79F5` is kept exact
(JS float addition is exact for the draw counts that occur here). -/
def mulberryNext (t : Nat) : Nat × Nat :=
  let t2 := t + 0x6D2B79F5
  let a := t2 % 4294967296
  let r1 := ((a ^^^ (a >>> 15)) * (1 ||| a)) % 4294967296
  let m2 := ((r1 ^^^ (r1 >>> 7)) * (61 ||| r1)) % 4294967296
  let r2 := r1 ^^^ ((r1 + m2) % 4294967296)
  (t2, r2 ^^^ (r2 >>> 14))

/-- The Fisher–Yates loop of `shuffleWithRng`, counting the loop index `i`
down to 1.  `Math.floor(rng() * (i + 1))` is `out * (i + 1) / 4294967296`
in exact arithmetic because the float product is exact. -/
def shuffleAux (t : Nat) (arr : Array Piece) : Nat → Array Piece × Nat
  | 0 => (arr, t)
  | i + 1 =>
    let s := mulberryNext t
    let j := s.2 * (i + 2) / 4294967296
    let vi := arr.getD (i + 1) .I
    let vj := arr.getD j .I
    shuffleAux s.1 ((arr.setD (i + 1) vj).setD j vi) i

/-- `shuffleWithRng(items, rng)`: copy the items and run the Fisher–Yates
pass, threading the generator accumulator. -/
def shuffleWithRng (items : Array Piece) (t : Nat) : Array Piece × Nat :=
  shuffleAux t items (items.size - 1)

/-- The state captured by the closure returned by `createPieceDealer`:
the `mulberry32` accumulator and the current bag (a JS array popped from
its end). -/
structure PieceDealer where
  t : Nat
  bag : Array Piece
deriving DecidableEq

/-- `createPieceDealer(seed)`: the seed is normalized with `seed >>> 0`
(value mod 2^32) and the bag starts empty. -/
def createPieceDealer (seed : Int) : PieceDealer :=
  ⟨(seed % 4294967296).toNat, #[]⟩

/-- Drawing a single piece inside `nextBatch`: refill the bag by shuffling
`PIECE_ORDER` when it is empty, then `bag.pop()` (the last element of the
JS array). -/
def dealerNext (d : PieceDealer) : Piece × PieceDealer :=
  let refilled := if d.bag.isEmpty then shuffleWithRng PIECE_ORDER d.t else (d.bag, d.t)
  (refilled.1.getD (refilled.1.size - 1) .I, ⟨refilled.2, refilled.1.pop⟩)

/-- `nextBatch(count)`: draw `count` pieces, returning them together with the
dealer's post-draw state. -/
def nextBatch (d : PieceDealer) : Nat → List Piece × PieceDealer
  | 0 => ([], d)
  | n + 1 =>
    ((dealerNext d).1 :: (nextBatch (dealerNext d).2 n).1,
      (nextBatch (dealerNext d).2 n).2)

/-- A sequence of successive `nextBatch` calls on one dealer, concatenating
the returned batches. -/
def nextBatches (d : PieceDealer) : List Nat → List Piece × PieceDealer
  | [] => ([], d)
  | c :: cs =>
    ((nextBatch d c).1 ++ (nextBatches (nextBatch d c).2 cs).1,
      (nextBatches (nextBatch d c).2 cs).2)

/-! ## Room registry (`class Room` and the socket handlers' room effects) -/

/-- Mutating the first list element satisfying `m` (JS `find` returns an
object reference that the handlers mutate in place). -/
def updateFirst (m : α → Bool) (f : α → α) : List α → List α
  | [] => []
  | a :: t => if m a then f a :: t else a :: updateFirst m f t

/-- `AVAILABLE_COLORS`. -/
def AVAILABLE_COLORS : List String :=
  ["#FF1493", "#00D9FF", "#FFDB58", "#39FF14"]

/-- JS `Set.add`: append if absent (insertion-ordered set as a list). -/
def setAdd (l : List String) (c : String) : List String :=
  if l.contains c then l else l ++ [c]

/-- The stored authoritative snapshot `lastStatePayload`
(`{...data, sequence, inputAcks}`); the client payload's own content is
opaque and modelled by a single `data` field. -/
structure StoredSnapshot where
  data : Nat
  sequence : Int
  inputAcks : List (String × Nat)
deriving DecidableEq

/-- An incoming `game-state` message: opaque content plus the optional
numeric `sequence` field (`typeof data.sequence === 'number'`). -/
structure GamePayload where
  data : Nat
  sequence : Option Int
deriving DecidableEq

/-- `room.currentGame` as built by `beginGame` (wall-clock fields
`startedAt`/`lastBroadcastAt` are omitted: no claim mentions them). -/
structure GameInstance where
  seed : Nat
  dealer : PieceDealer
  initialPieces : List Piece
  stateSequence : Int
  inputSequence : Nat
  lastStatePayload : Option StoredSnapshot
  lastInputByPlayer : List (String × Nat)
deriving DecidableEq

/-- A room member record as created by `addOrUpdatePlayer`
(`socketId` is `null` while disconnected). -/
structure RoomPlayer where
  sessionId : String
  socketId : Option String
  name : String
  color : String
  ready : Bool
  connected : Bool
deriving DecidableEq

/-- `class Room`. -/
structure Room where
  id : String
  name : String
  hostSessionId : String
  players : List RoomPlayer
  maxPlayers : Nat
  gameStarted : Bool
  usedColors : List String
  isPrivate : Bool
  accessCode : Option String
  currentGame : Option GameInstance
deriving DecidableEq

/-- The `Room` constructor. -/
def Room.create (id name hostSessionId : String) : Room :=
  { id := id, name := name, hostSessionId := hostSessionId, players := [],
    maxPlayers := 4, gameStarted := false, usedColors := [], isPrivate := false,
    accessCode := none, currentGame := none }

/-- `getPlayerBySession`. -/
def Room.getPlayerBySession (r : Room) (sessionId : String) : Option RoomPlayer :=
  r.players.find? (fun p => p.sessionId == sessionId)

/-- `get hostSocketId()`: the host member's socket if the host is a
connected member with a socket. -/
def Room.hostSocketId (r : Room) : Option String :=
  match r.players.find? (fun p =>
      p.sessionId == r.hostSessionId && p.connected && p.socketId.isSome) with
  | some p => p.socketId
  | none => none

/-- `pickNextHost`: prefer the first connected member, else the first member;
returns the updated room and whether the host changed. -/
def Room.pickNextHost (r : Room) : Room × Bool :=
  let newHost :=
    match r.players.find? (fun p => p.connected) with
    | some p => p.sessionId
    | none =>
      match r.players with
      | p :: _ => p.sessionId
      | [] => r.hostSessionId
  ({ r with hostSessionId := newHost }, r.hostSessionId != newHost)

/-- The `reservedColor` expression of `addOrUpdatePlayer`: a preferred color
not yet in use, else the first unused palette color. -/
def Room.reserveColor (r : Room) (preferredColor : Option String) : Option String :=
  match preferredColor with
  | some c =>
    if r.usedColors.contains c then
      AVAILABLE_COLORS.find? (fun color => !(r.usedColors.contains color))
    else some c
  | none => AVAILABLE_COLORS.find? (fun color => !(r.usedColors.contains color))

/-- `addOrUpdatePlayer(sessionId, socketId, playerName, preferredColor)`:
returns the room together with the `success` and `rejoined` flags. -/
def Room.addOrUpdatePlayer (r : Room) (sessionId socketId playerName : String)
    (preferredColor : Option String) : Room × Bool × Bool :=
  match r.getPlayerBySession sessionId with
  | some _ =>
    let updated := updateFirst (fun p => p.sessionId == sessionId)
      (fun p => { p with socketId := some socketId, name := playerName,
                         connected := true, ready := false }) r.players
    ({ r with players := updated }, true, true)
  | none =>
    if r.maxPlayers ≤ r.players.length then (r, false, false)
    else
      match r.reserveColor preferredColor with
      | none => (r, false, false)
      | some c =>
        let newPlayer : RoomPlayer :=
          { sessionId := sessionId, socketId := some socketId,
            name := playerName, color := c, ready := false, connected := true }
        ({ r with players := r.players ++ [newPlayer],
                  usedColors := setAdd r.usedColors c },
          true, false)

/-- `markPlayerDisconnected`: returns the room and the `updated` and
`hostChanged` flags (`pickNextHost` runs only when the player was host). -/
def Room.markPlayerDisconnected (r : Room) (sessionId : String) :
    Room × Bool × Bool :=
  match r.getPlayerBySession sessionId with
  | none => (r, false, false)
  | some p =>
    let updated := updateFirst (fun q => q.sessionId == sessionId)
      (fun q => { q with connected := false, socketId := none, ready := false })
      r.players
    let r1 := { r with players := updated }
    if p.sessionId == r.hostSessionId then
      ((r1.pickNextHost).1, true, (r1.pickNextHost).2)
    else (r1, true, false)

/-- `removePlayer`: splice out the first member with this session id, free
its color, and re-elect the host if it was the host. -/
def Room.removePlayer (r : Room) (sessionId : String) : Room × Bool × Bool :=
  match r.getPlayerBySession sessionId with
  | none => (r, false, false)
  | some p =>
    let r1 := { r with
        players := r.players.eraseP (fun q => q.sessionId == sessionId),
        usedColors := r.usedColors.erase p.color }
    if p.sessionId == r.hostSessionId then
      ((r1.pickNextHost).1, true, (r1.pickNextHost).2)
    else (r1, true, false)

/-- `setPlayerColor`: rejected when the color is falsy (empty string models
JS `!color`) or already used; otherwise the member's old color is released
and the new one reserved. -/
def Room.setPlayerColor (r : Room) (sessionId color : String) : Room × Bool :=
  if color == "" || r.usedColors.contains color then (r, false)
  else
    match r.getPlayerBySession sessionId with
    | none => (r, false)
    | some p =>
      let updated := updateFirst (fun q => q.sessionId == sessionId)
        (fun q => { q with color := color }) r.players
      ({ r with usedColors := setAdd (r.usedColors.erase p.color) color,
                players := updated },
        true)

/-- `setPlayerReady`: only connected members may change readiness. -/
def Room.setPlayerReady (r : Room) (sessionId : String) (ready : Bool) :
    Room × Bool :=
  match r.getPlayerBySession sessionId with
  | none => (r, false)
  | some p =>
    if p.connected then
      let updated := updateFirst (fun q => q.sessionId == sessionId)
        (fun q => { q with ready := ready }) r.players
      ({ r with players := updated }, true)
    else (r, false)

/-- The room-level effect of each socket event, with the handlers' guards:
`join-room` is refused once the game started; `kick-player` requires the
caller to be the host and the target a different member; `identify` of a
session whose `roomId` is this room re-runs `addOrUpdatePlayer`;
grace-period expiry removes like a voluntary leave. -/
inductive RoomEvent where
  | join (sessionId socketId playerName : String) (preferredColor : Option String)
  | identifyRejoin (sessionId socketId playerName : String)
      (preferredColor : Option String)
  | leave (sessionId : String)
  | kick (callerSessionId targetSessionId : String)
  | disconnect (sessionId : String)
  | graceExpire (sessionId : String)
  | changeColor (sessionId color : String)
  | setReady (sessionId : String) (ready : Bool)

/-- Apply one event's room-registry effect. -/
def applyEvent (r : Room) : RoomEvent → Room
  | .join sid sock nm pref =>
    if r.gameStarted then r else (r.addOrUpdatePlayer sid sock nm pref).1
  | .identifyRejoin sid sock nm pref => (r.addOrUpdatePlayer sid sock nm pref).1
  | .leave sid => (r.removePlayer sid).1
  | .kick caller target =>
    match r.getPlayerBySession target with
    | none => r
    | some tp =>
      if caller == r.hostSessionId && tp.sessionId != caller then
        (r.removePlayer tp.sessionId).1
      else r
  | .disconnect sid => (r.markPlayerDisconnected sid).1
  | .graceExpire sid => (r.removePlayer sid).1
  | .changeColor sid color => (r.setPlayerColor sid color).1
  | .setReady sid ready => (r.setPlayerReady sid ready).1

/-- A reachable room state: the registry effects of an event sequence. -/
def applyEvents (r : Room) (evs : List RoomEvent) : Room :=
  evs.foldl applyEvent r

/-- The room a `create-room` request builds: a fresh `Room` whose creator is
added by `addOrUpdatePlayer`. -/
def createdRoom (id name sessionId socketId playerName : String)
    (preferredColor : Option String) : Room :=
  ((Room.create id name sessionId).addOrUpdatePlayer
    sessionId socketId playerName preferredColor).1

/-- The C2 invariant: `usedColors` is duplicate-free and is, up to order,
exactly the list of member colors (hence member colors are pairwise
distinct). -/
def Room.colorInvariant (r : Room) : Prop :=
  r.usedColors.Nodup ∧ r.usedColors.Perm (r.players.map (fun p => p.color))

/-- The C3 invariant: if any member is connected, `hostSessionId` denotes a
connected member. -/
def Room.hostConnected (r : Room) : Prop :=
  (∃ p ∈ r.players, p.connected = true) →
    ∃ p ∈ r.players, p.sessionId = r.hostSessionId ∧ p.connected = true

instance (r : Room) : Decidable (Room.hostConnected r) :=
  inferInstanceAs (Decidable ((∃ p ∈ r.players, p.connected = true) →
    ∃ p ∈ r.players, p.sessionId = r.hostSessionId ∧ p.connected = true))

/-- The `game-state` handler's stamping step: honor a numeric client
sequence, otherwise auto-increment, and store the stamped payload as
`lastStatePayload`. -/
def gameStateStep (g : GameInstance) (p : GamePayload) : GameInstance :=
  let nextSequence :=
    match p.sequence with
    | some s => s
    | none => g.stateSequence + 1
  { g with stateSequence := nextSequence,
           lastStatePayload :=
             some ⟨p.data, nextSequence, g.lastInputByPlayer⟩ }

/-- The `game-state` handler at room level: dropped unless a game is active
and the sender is the host's socket. -/
def Room.handleGameState (r : Room) (socketId : String) (p : GamePayload) : Room :=
  match r.currentGame with
  | none => r
  | some g =>
    if r.hostSocketId = some socketId then
      { r with currentGame := some (gameStateStep g p) }
    else r

/-! ## Access codes (`create-room` / `join-room` handlers) -/

/-- JS `String.prototype.trim`: strip whitespace from both ends (identical
to the JS behavior on the ASCII strings handled here). -/
def jsTrim (s : String) : String :=
  String.mk (((s.toList.dropWhile Char.isWhitespace).reverse.dropWhile
    Char.isWhitespace).reverse)

/-- The character class `[A-Z0-9]` of the create-room strip regex. -/
def isUpperAlnum (c : Char) : Bool :=
  ('A' ≤ c && c ≤ 'Z') || ('0' ≤ c && c ≤ '9')

/-- `create-room` code normalization:
`payload.accessCode.trim().toUpperCase().replace(/[^A-Z0-9]/g, '')`
(JS `toUpperCase` agrees with `Char.toUpper` on ASCII). -/
def normalizeCreateCode (s : String) : String :=
  String.mk (((jsTrim s).toList.map Char.toUpper).filter isUpperAlnum)

/-- `join-room` code normalization: `payload.accessCode.trim().toUpperCase()`
— non-alphanumeric characters are NOT stripped here. -/
def normalizeJoinCode (s : String) : String :=
  String.mk ((jsTrim s).toList.map Char.toUpper)

/-- The `create-room` handler: validate the access code for private rooms
(`< 4` characters after normalization is rejected, `> 8` truncated), build
the `Room`, and seat the creator; an `Except.error` models the `error`
reply with no room stored. -/
def createRoomHandler (isPrivate : Bool) (accessCode : Option String)
    (roomId roomName sessionId socketId playerName : String)
    (preferredColor : Option String) : Except String Room :=
  let normalized : Except String (Option String) :=
    if isPrivate then
      match accessCode with
      | none => .error "Access code required"
      | some raw =>
        let code := normalizeCreateCode raw
        if code.length < 4 then .error "Access code required"
        else .ok (some (if 8 < code.length then String.mk (code.toList.take 8)
          else code))
    else .ok none
  match normalized with
  | .error e => .error e
  | .ok codeOpt =>
    let r0 := { Room.create roomId roomName sessionId with
      isPrivate := isPrivate, accessCode := codeOpt }
    match r0.addOrUpdatePlayer sessionId socketId playerName preferredColor with
    | (r1, true, _) => .ok r1
    | (_, false, _) => .error "Unable to reserve a slot in the new room."

/-- The `join-room` access check: a private room admits the request iff the
normalized supplied code is truthy and strictly equal (`!==`) to the stored
code. -/
def joinRoomAccessAllowed (room : Room) (accessCode : Option String) : Bool :=
  if room.isPrivate then
    match accessCode.map normalizeJoinCode with
    | none => false
    | some code =>
      if code == "" then false
      else
        match room.accessCode with
        | some stored => code == stored
        | none => false
  else true

/-! ## Shared-board collision engine (the client-side `Player` class) -/

/-- `BOARD_HEIGHT = 20`. -/
def BOARD_HEIGHT : Nat := 20

/-- `BASE_LINE_SCORE = 100` (a JS number; exact as a rational). -/
def BASE_LINE_SCORE : ℚ := 100

/-- `STREAK_BONUS_STEP = 0.1` (exact rational in this embedding). -/
def STREAK_BONUS_STEP : ℚ := 0.1

/-- `MULTI_LINE_BONUS_STEP = 0.2` (exact rational in this embedding). -/
def MULTI_LINE_BONUS_STEP : ℚ := 0.2

/-- A piece position `{x, y}`. -/
structure Pos where
  x : Int
  y : Int
deriving DecidableEq

/-- A piece shape matrix (rows of 0/1 cells); `[]` models a `null` piece. -/
abbrev PieceShape := List (List Nat)

/-- `sharedStats.lastClearDetail`. -/
structure ClearDetail where
  linesCleared : Nat
  totalScore : Int
  perLineScore : Int
  basePerLine : ℚ
  comboChain : Nat
  comboMultiplier : ℚ
  multiMultiplier : ℚ
  streakBonusPercent : Int
  multiBonusPercent : Int
deriving DecidableEq

/-- `gameState.sharedStats` (team-wide cooperative scoring). -/
structure SharedStats where
  score : Int
  lines : Nat
  level : Nat
  comboChain : Nat
  lastClearDetail : Option ClearDetail
deriving DecidableEq

/-- The per-player fields of the `Player` class used by the collision and
scoring logic (timing counters are exact rationals). -/
structure EnginePlayer where
  id : Nat
  currentPiece : PieceShape
  nextPiece : PieceShape
  position : Pos
  gameOver : Bool
  dropCounter : ℚ
  dropInterval : ℚ
  score : Int
  lines : Nat
  level : Nat
  spawnAnchor : ℚ
deriving DecidableEq

/-- The shared `gameState` of the client-side engine. -/
structure EngineState where
  board : List (List Nat)
  boardWidth : Nat
  players : List EnginePlayer
  sharedStats : SharedStats
  sharedStatsDirty : Bool
  isGameOver : Bool
deriving DecidableEq

/-- The board coordinates of a piece's occupied cells, in the row-major
order of the nested loops of `checkCollision`/`merge`. -/
def pieceCells (piece : PieceShape) (pos : Pos) : List (Int × Int) :=
  (piece.enum.map (fun rowi =>
    rowi.2.enum.filterMap (fun celli =>
      if celli.2 ≠ 0 then
        some (pos.x + (celli.1 : Int), pos.y + (rowi.1 : Int))
      else none))).flatten

/-- `isCellOccupiedByOtherPiece(x, y, currentPlayerId)`: some other,
non-eliminated player's currently-falling piece covers the cell. -/
def isCellOccupiedByOtherPiece (players : List EnginePlayer) (x y : Int)
    (currentPlayerId : Nat) : Bool :=
  players.any (fun player =>
    if player.id == currentPlayerId || player.gameOver ||
        player.currentPiece.isEmpty then false
    else (pieceCells player.currentPiece player.position).contains (x, y))

/-- Reading `gameState.board[y][x]` (0 outside the stored rows). -/
def boardAt (board : List (List Nat)) (y x : Int) : Nat :=
  if 0 ≤ y ∧ 0 ≤ x then (board.getD y.toNat []).getD x.toNat 0 else 0

/-- The result record of `checkCollision`. -/
structure CollisionResult where
  collides : Bool
  withLocked : Bool
  withActive : Bool
deriving DecidableEq

/-- The cell loop of `checkCollision`: out-of-bounds or a locked board cell
returns immediately with `withLocked`; a cell above the top is skipped; an
overlap with another active piece sets `withActive` and keeps scanning. -/
def checkCellsAux (board : List (List Nat)) (boardWidth : Nat)
    (players : List EnginePlayer) (selfId : Nat) :
    List (Int × Int) → CollisionResult → CollisionResult
  | [], acc => acc
  | c :: rest, acc =>
    if c.1 < 0 ∨ (boardWidth : Int) ≤ c.1 ∨ (BOARD_HEIGHT : Int) ≤ c.2 then
      { acc with collides := true, withLocked := true }
    else if c.2 < 0 then
      checkCellsAux board boardWidth players selfId rest acc
    else if boardAt board c.2 c.1 ≠ 0 then
      { acc with collides := true, withLocked := true }
    else if isCellOccupiedByOtherPiece players c.1 c.2 selfId then
      checkCellsAux board boardWidth players selfId rest
        { acc with collides := true, withActive := true }
    else
      checkCellsAux board boardWidth players selfId rest acc

/-- `checkCollision(piece, pos)` for the player `selfId`. -/
def checkCollision (st : EngineState) (selfId : Nat) (piece : PieceShape)
    (pos : Pos) : CollisionResult :=
  checkCellsAux st.board st.boardWidth st.players selfId (pieceCells piece pos)
    ⟨false, false, false⟩

/-- Writing `board[y][x] = v` (no-op outside the stored rows, like the
harmless JS property writes). -/
def setBoardCell (b : List (List Nat)) (y x : Int) (v : Nat) : List (List Nat) :=
  if 0 ≤ y ∧ 0 ≤ x then b.set y.toNat ((b.getD y.toNat []).set x.toNat v) else b

/-- `merge()`: write the piece's cells with owner tag `id + 1`, skipping
rows above the top (`boardY >= 0` check in the source). -/
def mergePiece (board : List (List Nat)) (piece : PieceShape) (pos : Pos)
    (pid : Nat) : List (List Nat) :=
  (pieceCells piece pos).foldl
    (fun b c => if 0 ≤ c.2 then setBoardCell b c.2 c.1 (pid + 1) else b) board

/-- `row.every(cell => cell !== 0)`. -/
def rowFull (row : List Nat) : Bool := row.all (fun cell => cell != 0)

/-- The completed-row sweep of `clearLines`: the bottom-up splice/unshift
loop removes every full row and prepends that many empty rows (the loop
form; new empty rows are never full since the game's width is positive). -/
def sweepBoard (board : List (List Nat)) (width : Nat) :
    List (List Nat) × Nat :=
  let kept := board.filter (fun row => !(rowFull row))
  let cleared := board.length - kept.length
  (List.replicate cleared (List.replicate width 0) ++ kept, cleared)

/-- `clearLines()`: sweep full rows, then update the shared team statistics
with the streak and multi-line multipliers and tighten every player's drop
interval. -/
def clearLines (st : EngineState) (selfId : Nat) : EngineState :=
  let swept := sweepBoard st.board st.boardWidth
  let linesCleared := swept.2
  if linesCleared = 0 then
    { st with
        board := swept.1,
        sharedStats := { st.sharedStats with
          comboChain := 0, lastClearDetail := none },
        sharedStatsDirty :=
          if st.sharedStats.comboChain ≠ 0 then true else st.sharedStatsDirty }
  else
    let comboStep := st.sharedStats.comboChain
    let comboMultiplier : ℚ := 1 + STREAK_BONUS_STEP * comboStep
    let multiMultiplier : ℚ :=
      1 + MULTI_LINE_BONUS_STEP * ((linesCleared : ℚ) - 1)
    let perLineScore : Int :=
      round (BASE_LINE_SCORE * comboMultiplier * multiMultiplier)
    let gained : Int := perLineScore * linesCleared
    let streakBonusPercent : Int := round ((comboMultiplier - 1) * 100)
    let multiBonusPercent : Int := round ((multiMultiplier - 1) * 100)
    let newLines := st.sharedStats.lines + linesCleared
    let newScore := st.sharedStats.score + gained
    let newLevel := newLines / 10 + 1
    let newStats : SharedStats :=
      { score := newScore, lines := newLines, level := newLevel,
        comboChain := comboStep + 1,
        lastClearDetail := some
          { linesCleared := linesCleared, totalScore := gained,
            perLineScore := perLineScore, basePerLine := BASE_LINE_SCORE,
            comboChain := comboStep + 1, comboMultiplier := comboMultiplier,
            multiMultiplier := multiMultiplier,
            streakBonusPercent := streakBonusPercent,
            multiBonusPercent := multiBonusPercent } }
    { st with
        board := swept.1,
        sharedStats := newStats,
        sharedStatsDirty := true,
        players := st.players.map (fun player =>
          { player with
              dropInterval :=
                max 100 (player.dropInterval * (0.95 : ℚ) ^ linesCleared),
              lines := newLines, score := newScore, level := newLevel }) }

/-- The spawn-column search of `spawnPiece`: offsets grow outward from the
preferred column, left candidate before right (the `checked` set of the
source only avoids re-testing a candidate and cannot change the result). -/
def findSpawnX (st : EngineState) (selfId : Nat) (piece : PieceShape)
    (preferredX : Int) (pieceWidth : Nat) : Option Int :=
  (List.range st.boardWidth).findSome? (fun offset =>
    let candidates :=
      if offset = 0 then [preferredX]
      else
        (if 0 ≤ preferredX - (offset : Int) then [preferredX - (offset : Int)]
          else []) ++
        (if preferredX + (offset : Int) ≤ (st.boardWidth : Int) - (pieceWidth : Int)
          then [preferredX + (offset : Int)] else [])
    candidates.find? (fun candidate =>
      !(checkCollision st selfId piece (Pos.mk candidate 0)).collides))

/-- `spawnPiece()`: promote `nextPiece` (the fresh random piece is the
`newNext` parameter), search a spawn column, and mark the player eliminated
when no column admits the piece and the fallback position collides;
`checkAllPlayersGameOver` then ends the board when everyone is eliminated. -/
def spawnPiece (st : EngineState) (selfId : Nat) (newNext : PieceShape) :
    EngineState :=
  match st.players.find? (fun q => q.id == selfId) with
  | none => st
  | some p =>
    let piece := p.nextPiece
    let pieceWidth := (piece.headD []).length
    let preferredX : Int :=
      min ((st.boardWidth : Int) - (pieceWidth : Int))
        (max 0 (round (p.spawnAnchor - (pieceWidth : ℚ) / 2)))
    let spawnPosition := findSpawnX st selfId piece preferredX pieceWidth
    let newPos :=
      match spawnPosition with
      | some x => Pos.mk x 0
      | none => Pos.mk preferredX 0
    let gameOverNow :=
      spawnPosition.isNone &&
        (checkCollision st selfId piece newPos).collides
    let upd := updateFirst (fun q => q.id == selfId)
      (fun q => { q with currentPiece := piece, nextPiece := newNext,
                         position := newPos,
                         gameOver := gameOverNow || q.gameOver,
                         dropCounter := 0 }) st.players
    let st1 := { st with players := upd }
    if gameOverNow && !st1.players.isEmpty &&
        st1.players.all (fun q => q.gameOver) then
      { st1 with isGameOver := true }
    else st1

/-- `drop()`: move down one row; on a locked collision restore, merge,
clear lines and respawn; on a soft-only collision just restore; always
reset the drop counter. -/
def dropPlayer (st : EngineState) (selfId : Nat) (newNext : PieceShape) :
    EngineState :=
  match st.players.find? (fun q => q.id == selfId) with
  | none => st
  | some p =>
    let posDown := Pos.mk p.position.x (p.position.y + 1)
    let collision := checkCollision st selfId p.currentPiece posDown
    if collision.collides then
      if collision.withLocked then
        let st1 := { st with
          board := mergePiece st.board p.currentPiece p.position p.id }
        let st2 := clearLines st1 selfId
        let st3 := spawnPiece st2 selfId newNext
        let upd := updateFirst (fun q => q.id == selfId)
          (fun q => { q with dropCounter := 0 }) st3.players
        { st3 with players := upd }
      else
        let upd := updateFirst (fun q => q.id == selfId)
          (fun q => { q with dropCounter := 0 }) st.players
        { st with players := upd }
    else
      let upd := updateFirst (fun q => q.id == selfId)
        (fun q => { q with position := posDown, dropCounter := 0 }) st.players
      { st with players := upd }

/-! ## Session registry and reconnection (server handlers) -/

/-- A server session (`createSession`); the armed `setTimeout` handle is a
flag, and the timer firing is the explicit `finalizeSessionRoomCleanup`
step. -/
structure Session where
  id : String
  name : String
  roomId : Option String
  color : Option String
  ready : Bool
  connected : Bool
  socketId : Option String
  disconnectTimer : Bool
deriving DecidableEq

/-- A per-socket entry of the `players` map. -/
structure SocketPlayer where
  id : String
  sessionId : Option String
  name : String
  roomId : Option String
deriving DecidableEq

/-- The server's global registries (`sessions`, `rooms`, `players`). -/
structure ServerState where
  sessions : List Session
  rooms : List Room
  players : List SocketPlayer
deriving DecidableEq

/-- `getSession(sessionId)`. -/
def getSession (st : ServerState) (sessionId : Option String) : Option Session :=
  match sessionId with
  | none => none
  | some sid => st.sessions.find? (fun s => s.id == sid)

/-- `rooms.get(roomId)`. -/
def getRoom (st : ServerState) (roomId : String) : Option Room :=
  st.rooms.find? (fun r => r.id == roomId)

/-- Messages the handlers emit (only the fields the claims inspect). -/
inductive Emit where
  | sessionConfirmed (sessionId name : String) (restoredRoom : Bool)
  | roomJoined (roomId : String)
  | roomUpdate (roomId : String)
  | hostChanged (roomId : String)
  | gameStart (roomId : String) (seed : Nat) (pieces : List Piece) (resumed : Bool)
  | gameState (snapshot : StoredSnapshot)
  | roomsList
deriving DecidableEq

/-- `createSession(defaultName)`; the random id is the `freshId` parameter. -/
def createSession (st : ServerState) (freshId defaultName : String) :
    ServerState × Session :=
  let session : Session :=
    { id := freshId, name := defaultName, roomId := none, color := none,
      ready := false, connected := false, socketId := none,
      disconnectTimer := false }
  ({ st with sessions := st.sessions ++ [session] }, session)

/-- `attachSessionToSocket(session, socket)`: mirror the session into the
socket's `players` entry, mark connected and cancel any pending cleanup
timer. -/
def attachSessionToSocket (st : ServerState) (sessionId socketId : String) :
    ServerState :=
  match getSession st (some sessionId) with
  | none => st
  | some session =>
    let pupd := updateFirst (fun p => p.id == socketId)
      (fun p => { p with sessionId := some session.id, name := session.name,
                         roomId := session.roomId }) st.players
    let supd := updateFirst (fun q => q.id == sessionId)
      (fun q => { q with socketId := some socketId, connected := true,
                         disconnectTimer := false }) st.sessions
    { st with players := pupd, sessions := supd }

/-- `scheduleSessionCleanup(sessionId)`: arm the 30-second grace timer
unless one is already armed. -/
def scheduleSessionCleanup (st : ServerState) (sessionId : String) :
    ServerState :=
  match getSession st (some sessionId) with
  | none => st
  | some s =>
    if s.disconnectTimer then st
    else
      let supd := updateFirst (fun q => q.id == sessionId)
        (fun q => { q with disconnectTimer := true }) st.sessions
      { st with sessions := supd }

/-- `finalizeSessionRoomCleanup(sessionId)`: the grace timer firing —
remove the member as in a voluntary leave, delete the room iff it became
empty, and clear the session's room fields. -/
def finalizeSessionRoomCleanup (st : ServerState) (sessionId : String) :
    ServerState × List Emit :=
  match getSession st (some sessionId) with
  | none => (st, [])
  | some session =>
    match session.roomId with
    | none =>
      let supd := updateFirst (fun q => q.id == sessionId)
        (fun q => { q with disconnectTimer := false }) st.sessions
      ({ st with sessions := supd }, [])
    | some rid =>
      let core :=
        match getRoom st rid with
        | none => (st.rooms, ([] : List Emit))
        | some room =>
          let rem := room.removePlayer sessionId
          if rem.2.1 then
            if rem.1.players = [] then
              (st.rooms.filter (fun r => !(r.id == rid)), [Emit.roomsList])
            else
              (updateFirst (fun r => r.id == rid) (fun _ => rem.1) st.rooms,
                [Emit.roomUpdate rid] ++
                  (if rem.2.2 then [Emit.hostChanged rid] else []) ++
                  [Emit.roomsList])
          else (st.rooms, [])
      let supd := updateFirst (fun q => q.id == sessionId)
        (fun q => { q with roomId := none, color := none, ready := false,
                           disconnectTimer := false }) st.sessions
      ({ st with rooms := core.1, sessions := supd }, core.2)

/-- The `identify` handler: resume (or mint) the session, attach the
socket, confirm, and re-seat the session in its previous room, replaying
`game-start` and the stored snapshot when a game is live. -/
def identifyHandler (st : ServerState) (socketId : String)
    (providedSessionId : Option String) (nickname : Option String)
    (freshId defaultName : String) : ServerState × List Emit :=
  let provided := providedSessionId.map jsTrim
  let found : ServerState × Session :=
    match getSession st provided with
    | some s => (st, s)
    | none => createSession st freshId defaultName
  let st1 := found.1
  let session0 := found.2
  let named : ServerState × Session :=
    match nickname with
    | some n =>
      if jsTrim n ≠ "" then
        let newName := (jsTrim n).take 20
        let supd := updateFirst (fun q : Session => q.id == session0.id)
          (fun q : Session => { q with name := newName }) st1.sessions
        ({ st1 with sessions := supd }, { session0 with name := newName })
      else (st1, session0)
    | none => (st1, session0)
  let st2 := named.1
  let session1 := named.2
  let st3 := attachSessionToSocket st2 session1.id socketId
  let pupd := updateFirst (fun p : SocketPlayer => p.id == socketId)
    (fun p => { p with sessionId := some session1.id, name := session1.name,
                       roomId := session1.roomId }) st3.players
  let st4 := { st3 with players := pupd }
  let emits0 := [Emit.sessionConfirmed session1.id session1.name
    session1.roomId.isSome]
  match session1.roomId with
  | none => (st4, emits0)
  | some rid =>
    match getRoom st4 rid with
    | none =>
      let supd := updateFirst (fun q : Session => q.id == session1.id)
        (fun q : Session => { q with roomId := none }) st4.sessions
      let pupd2 := updateFirst (fun p : SocketPlayer => p.id == socketId)
        (fun p : SocketPlayer => { p with roomId := none }) st4.players
      ({ st4 with sessions := supd, players := pupd2 }, emits0)
    | some room =>
      let res := room.addOrUpdatePlayer session1.id socketId session1.name
        session1.color
      if res.2.1 then
        let room1 := res.1
        let supd := updateFirst (fun q : Session => q.id == session1.id)
          (fun q =>
            match (room1.getPlayerBySession session1.id).map
                (fun rp => rp.color) with
            | some c => { q with color := some c }
            | none => q) st4.sessions
        let rupd := updateFirst (fun r : Room => r.id == rid) (fun _ => room1) st4.rooms
        let st5 := { st4 with rooms := rupd, sessions := supd }
        let emits1 := emits0 ++
          [Emit.roomJoined rid, Emit.roomUpdate rid, Emit.roomsList]
        let snapshotEmits :=
          match room1.gameStarted, room1.currentGame with
          | true, some g =>
            match g.lastStatePayload with
            | some snap =>
              [Emit.gameStart rid g.seed g.initialPieces true,
                Emit.gameState snap]
            | none => []
          | _, _ => []
        (st5, emits1 ++ snapshotEmits)
      else
        let supd := updateFirst (fun q : Session => q.id == session1.id)
          (fun q : Session => { q with roomId := none }) st4.sessions
        let pupd2 := updateFirst (fun p : SocketPlayer => p.id == socketId)
          (fun p : SocketPlayer => { p with roomId := none }) st4.players
        ({ st4 with sessions := supd, players := pupd2 }, emits0)

/-! ## Theorems -/

/-- Splitting a draw into two successive `nextBatch` calls draws the same
pieces and reaches the same dealer state as one combined call. -/
theorem nextBatch_add (m n : Nat) (d : PieceDealer) :
    nextBatch d (m + n) =
      ((nextBatch d m).1 ++ (nextBatch (nextBatch d m).2 n).1,
        (nextBatch (nextBatch d m).2 n).2) := by
  induction m generalizing d with
  | zero => simp [nextBatch]
  | succ k ih =>
    have h : k + 1 + n = (k + n) + 1 := by omega
    rw [h]
    simp only [nextBatch, ih, List.cons_append]

/-- A run of successive `nextBatch` calls equals a single call for the total
count. -/
theorem nextBatches_eq_sum (l : List Nat) (d : PieceDealer) :
    nextBatches d l = nextBatch d l.sum := by
  induction l generalizing d with
  | nil => simp [nextBatches, nextBatch]
  | cons c cs ih =>
    simp only [nextBatches, ih, List.sum_cons, nextBatch_add]

/-- C1: for every seed, the piece sequence is a pure function of the seed and
the total draw count: any two ways of batching the draws of a freshly seeded
dealer (in particular, two independently constructed dealers with the same
seed) produce the same concatenated piece sequence. -/
theorem c1_dealer_batch_split_invariance (seed : Int) (l1 l2 : List Nat)
    (h : l1.sum = l2.sum) :
    (nextBatches (createPieceDealer seed) l1).1 =
      (nextBatches (createPieceDealer seed) l2).1 := by
  rw [nextBatches_eq_sum, nextBatches_eq_sum, h]

/-- Witness for C1 at seed 123: drawing 100 pieces in one batch equals
drawing 40 and then 60. -/
theorem c1_dealer_batch_split_invariance_witness :
    ([100] : List Nat).sum = ([40, 60] : List Nat).sum ∧
      (nextBatches (createPieceDealer 123) [100]).1 =
        (nextBatches (createPieceDealer 123) [40, 60]).1 :=
  ⟨by decide, c1_dealer_batch_split_invariance 123 [100] [40, 60] (by decide)⟩

/-- Elements of `updateFirst m f l` come from `l`, possibly with `f`
applied. -/
theorem mem_updateFirst {m : α → Bool} {f : α → α} :
    ∀ {l : List α} {x : α}, x ∈ updateFirst m f l → x ∈ l ∨ ∃ y ∈ l, x = f y := by
  intro l
  induction l with
  | nil => intro x hx; simp [updateFirst] at hx
  | cons a t ih =>
    intro x hx
    by_cases hm : m a
    · simp only [updateFirst, if_pos hm, List.mem_cons] at hx
      rcases hx with hx | hx
      · exact Or.inr ⟨a, List.mem_cons_self a t, hx⟩
      · exact Or.inl (List.mem_cons_of_mem a hx)
    · simp only [updateFirst, if_neg hm, List.mem_cons] at hx
      rcases hx with hx | hx
      · exact Or.inl (hx ▸ List.mem_cons_self a t)
      · rcases ih hx with h | ⟨y, hy, hxy⟩
        · exact Or.inl (List.mem_cons_of_mem a h)
        · exact Or.inr ⟨y, List.mem_cons_of_mem a hy, hxy⟩

/-- An element not matched by `m` survives `updateFirst m f` unchanged. -/
theorem mem_updateFirst_of_neg {m : α → Bool} {f : α → α} {y : α} :
    ∀ {l : List α}, y ∈ l → m y = false → y ∈ updateFirst m f l := by
  intro l
  induction l with
  | nil => intro h _; simp at h
  | cons a t ih =>
    intro hy hmy
    by_cases hm : m a
    · rcases List.mem_cons.mp hy with rfl | hy
      · rw [hm] at hmy; cases hmy
      · simp only [updateFirst, if_pos hm]
        exact List.mem_cons_of_mem _ hy
    · rcases List.mem_cons.mp hy with rfl | hy
      · simp [updateFirst, if_neg hm]
      · simp only [updateFirst, if_neg hm, List.mem_cons]
        exact Or.inr (ih hy hmy)

/-- An element not matched by `m` survives `List.eraseP m`. -/
theorem mem_eraseP_of_neg {m : α → Bool} {y : α} :
    ∀ {l : List α}, y ∈ l → m y = false → y ∈ l.eraseP m := by
  intro l
  induction l with
  | nil => intro h _; simp at h
  | cons a t ih =>
    intro hy hmy
    by_cases hm : m a
    · rcases List.mem_cons.mp hy with rfl | hy
      · rw [hm] at hmy; cases hmy
      · simp only [List.eraseP_cons, hm, cond_true]; exact hy
    · rcases List.mem_cons.mp hy with rfl | hy
      · simp only [List.eraseP_cons, Bool.not_eq_true] at hm
        simp only [List.eraseP_cons, hm, cond_false]
        exact List.mem_cons_self _ _
      · simp only [Bool.not_eq_true] at hm
        simp only [List.eraseP_cons, hm, cond_false]
        exact List.mem_cons_of_mem _ (ih hy hmy)

/-- `find?` splits the list around the first match, and `eraseP` and
`updateFirst` act exactly at that position. -/
theorem find?_split (m : α → Bool) (f : α → α) :
    ∀ {l : List α} {p : α}, l.find? m = some p →
      ∃ l1 l2, l = l1 ++ p :: l2 ∧ l.eraseP m = l1 ++ l2 ∧
        updateFirst m f l = l1 ++ f p :: l2 := by
  intro l
  induction l with
  | nil => intro p h; simp [List.find?] at h
  | cons a t ih =>
    intro p h
    by_cases hm : m a
    · rw [List.find?_cons_of_pos _ hm] at h
      cases h
      exact ⟨[], t, rfl, by simp [List.eraseP_cons, hm],
        by simp [updateFirst, if_pos hm]⟩
    · rw [List.find?_cons_of_neg _ hm] at h
      obtain ⟨l1, l2, h1, h2, h3⟩ := ih h
      refine ⟨a :: l1, l2, by rw [h1]; rfl, ?_, ?_⟩
      · simp only [Bool.not_eq_true] at hm
        simp [List.eraseP_cons, hm, h2]
      · simp [updateFirst, if_neg hm, h3]

/-- `updateFirst` leaves any projection that `f` preserves unchanged. -/
theorem updateFirst_map_eq (m : α → Bool) (f : α → α) (g : α → β)
    (hg : ∀ a, g (f a) = g a) :
    ∀ l : List α, (updateFirst m f l).map g = l.map g := by
  intro l
  induction l with
  | nil => rfl
  | cons a t ih =>
    by_cases hm : m a
    · simp [updateFirst, if_pos hm, hg]
    · simp [updateFirst, if_neg hm, ih]

/-- Appending a fresh element keeps a list duplicate-free. -/
theorem nodup_append_singleton {l : List α} {c : α}
    (hnd : l.Nodup) (hc : c ∉ l) : (l ++ [c]).Nodup := by
  have hperm := List.perm_append_singleton c l
  exact hperm.symm.nodup (List.nodup_cons.mpr ⟨hc, hnd⟩)

/-- `pickNextHost` does not touch membership or colors. -/
theorem pickNextHost_players (r : Room) :
    (r.pickNextHost).1.players = r.players ∧
      (r.pickNextHost).1.usedColors = r.usedColors := ⟨rfl, rfl⟩

/-- If the room still has a connected member, `pickNextHost` elects a
connected member. -/
theorem pickNextHost_connected (r : Room)
    (h : ∃ p ∈ r.players, p.connected = true) :
    ∃ p ∈ r.players,
      p.sessionId = (r.pickNextHost).1.hostSessionId ∧ p.connected = true := by
  obtain ⟨q, hq, hqc⟩ := h
  have hsome : (r.players.find? (fun p => p.connected)).isSome := by
    rw [List.find?_isSome]
    exact ⟨q, hq, hqc⟩
  obtain ⟨w, hw⟩ := Option.isSome_iff_exists.mp hsome
  refine ⟨w, List.mem_of_find?_eq_some hw, ?_, by simpa using List.find?_some hw⟩
  simp [Room.pickNextHost, hw]


/-- A color returned by `reserveColor` is not yet in `usedColors`. -/
theorem reserveColor_not_used {r : Room} {pref : Option String} {c : String}
    (h : r.reserveColor pref = some c) : r.usedColors.contains c = false := by
  unfold Room.reserveColor at h
  split at h
  · split at h
    · simpa using List.find?_some h
    · rename_i hc
      injection h with h2
      subst h2
      simpa using hc
  · simpa using List.find?_some h

/-- `pickNextHost` preserves the color invariant (it only changes the
host designation). -/
theorem colorInvariant_pickNextHost {r : Room} (h : r.colorInvariant) :
    (r.pickNextHost).1.colorInvariant := h

/-- `addOrUpdatePlayer` preserves the color invariant: a rejoin leaves
colors untouched, a fresh join reserves an unused color. -/
theorem colorInvariant_addOrUpdatePlayer {r : Room} (sid sock nm : String)
    (pref : Option String) (h : r.colorInvariant) :
    (r.addOrUpdatePlayer sid sock nm pref).1.colorInvariant := by
  unfold Room.addOrUpdatePlayer
  split
  · rename_i p hf
    have hmapfix : (updateFirst (fun q => q.sessionId == sid)
        (fun q => { q with socketId := some sock, name := nm,
                           connected := true, ready := false })
        r.players).map (fun q => q.color) = r.players.map (fun q => q.color) :=
      updateFirst_map_eq (fun q => q.sessionId == sid)
        (fun q => { q with socketId := some sock, name := nm,
                           connected := true, ready := false })
        (fun q => q.color) (fun a => rfl) r.players
    exact ⟨h.1, hmapfix.symm ▸ h.2⟩
  · rename_i hf
    split
    · exact h
    · rename_i hlen
      split
      · exact h
      · rename_i c hrc
        have hcu : r.usedColors.contains c = false := reserveColor_not_used hrc
        have hcm : c ∉ r.usedColors := by simpa using hcu
        have hsa : setAdd r.usedColors c = r.usedColors ++ [c] := by
          simp [setAdd, hcu, hcm]
        have hnd : (setAdd r.usedColors c).Nodup := by
          rw [hsa]
          exact nodup_append_singleton h.1 hcm
        have hperm : (setAdd r.usedColors c).Perm
            ((r.players ++ [RoomPlayer.mk sid (some sock) nm c false true]).map
              (fun q => q.color)) := by
          rw [hsa]
          simp only [List.map_append, List.map_cons, List.map_nil]
          exact h.2.append_right [c]
        exact ⟨hnd, hperm⟩

/-- `removePlayer` preserves the color invariant: the departing member's
color is deleted from `usedColors`. -/
theorem colorInvariant_removePlayer {r : Room} (sid : String)
    (h : r.colorInvariant) : (r.removePlayer sid).1.colorInvariant := by
  unfold Room.removePlayer
  split
  · exact h
  · rename_i p hf
    have hf' : r.players.find? (fun q => q.sessionId == sid) = some p := hf
    obtain ⟨l1, l2, hl, he, _⟩ := find?_split _ id hf'
    have hmap : r.players.map (fun q => q.color) =
        l1.map (fun q => q.color) ++ p.color :: l2.map (fun q => q.color) := by
      rw [hl]; simp
    have hmapnd : (r.players.map (fun q => q.color)).Nodup := h.2.nodup h.1
    rw [hmap] at hmapnd
    have hmid := List.nodup_middle.mp hmapnd
    have hpc1 : p.color ∉ l1.map (fun q => q.color) := fun hx =>
      (List.nodup_cons.mp hmid).1 (List.mem_append.mpr (Or.inl hx))
    have hperm2 : (r.usedColors.erase p.color).Perm
        ((r.players.eraseP (fun q => q.sessionId == sid)).map (fun q => q.color)) := by
      have h3 := h.2.erase p.color
      rw [hmap, List.erase_append_right _ hpc1, List.erase_cons_head] at h3
      rw [he]
      simpa [List.map_append] using h3
    have hinv1 : Room.colorInvariant { r with
        players := r.players.eraseP (fun q => q.sessionId == sid),
        usedColors := r.usedColors.erase p.color } :=
      ⟨h.1.erase p.color, hperm2⟩
    split
    · exact colorInvariant_pickNextHost hinv1
    · exact hinv1

/-- `setPlayerColor` preserves the color invariant: the old color is
released and the (previously unused) new color reserved. -/
theorem colorInvariant_setPlayerColor {r : Room} (sid c : String)
    (h : r.colorInvariant) : (r.setPlayerColor sid c).1.colorInvariant := by
  unfold Room.setPlayerColor
  split
  · exact h
  · rename_i hg
    have hor : (c == "" || r.usedColors.contains c) = false := by
      simpa using hg
    have hcu : r.usedColors.contains c = false := (Bool.or_eq_false_iff.mp hor).2
    have hcm : c ∉ r.usedColors := by simpa using hcu
    split
    · exact h
    · rename_i p hf
      have hf' : r.players.find? (fun q => q.sessionId == sid) = some p := hf
      obtain ⟨l1, l2, hl, _, hu⟩ :=
        find?_split (fun q => q.sessionId == sid)
          (fun q : RoomPlayer => { q with color := c }) hf'
      have hmap : r.players.map (fun q => q.color) =
          l1.map (fun q => q.color) ++ p.color :: l2.map (fun q => q.color) := by
        rw [hl]; simp
      have hmapnd : (r.players.map (fun q => q.color)).Nodup := h.2.nodup h.1
      rw [hmap] at hmapnd
      have hmid := List.nodup_middle.mp hmapnd
      have hpc1 : p.color ∉ l1.map (fun q => q.color) := fun hx =>
        (List.nodup_cons.mp hmid).1 (List.mem_append.mpr (Or.inl hx))
      have hperm2 : (r.usedColors.erase p.color).Perm
          (l1.map (fun q => q.color) ++ l2.map (fun q => q.color)) := by
        have h3 := h.2.erase p.color
        rw [hmap, List.erase_append_right _ hpc1, List.erase_cons_head] at h3
        exact h3
      have hce : c ∉ r.usedColors.erase p.color := fun hx =>
        hcm (List.erase_subset _ _ hx)
      have hsa : setAdd (r.usedColors.erase p.color) c =
          r.usedColors.erase p.color ++ [c] := by
        have : (r.usedColors.erase p.color).contains c = false := by
          simpa using hce
        simp [setAdd, this, hce]
      have hnd : (setAdd (r.usedColors.erase p.color) c).Nodup := by
        rw [hsa]
        exact nodup_append_singleton (h.1.erase p.color) hce
      have hmapu : (updateFirst (fun q => q.sessionId == sid)
          (fun q : RoomPlayer => { q with color := c }) r.players).map
            (fun q => q.color) =
          l1.map (fun q => q.color) ++ c :: l2.map (fun q => q.color) := by
        rw [hu]; simp
      have hpermfinal : (setAdd (r.usedColors.erase p.color) c).Perm
          ((updateFirst (fun q => q.sessionId == sid)
            (fun q : RoomPlayer => { q with color := c }) r.players).map
              (fun q => q.color)) := by
        rw [hsa, hmapu]
        exact ((List.perm_append_singleton c _).trans (hperm2.cons c)).trans
          List.perm_middle.symm
      exact ⟨hnd, hpermfinal⟩

/-- `markPlayerDisconnected` preserves the color invariant. -/
theorem colorInvariant_markPlayerDisconnected {r : Room} (sid : String)
    (h : r.colorInvariant) : (r.markPlayerDisconnected sid).1.colorInvariant := by
  unfold Room.markPlayerDisconnected
  split
  · exact h
  · rename_i p hf
    have hmapfix : (updateFirst (fun q => q.sessionId == sid)
        (fun q => { q with connected := false, socketId := none, ready := false })
        r.players).map (fun q => q.color) = r.players.map (fun q => q.color) :=
      updateFirst_map_eq (fun q => q.sessionId == sid)
        (fun q => { q with connected := false, socketId := none, ready := false })
        (fun q => q.color) (fun a => rfl) r.players
    have hinv1 : Room.colorInvariant { r with
        players := updateFirst (fun q => q.sessionId == sid)
          (fun q => { q with connected := false, socketId := none, ready := false })
          r.players } :=
      ⟨h.1, hmapfix.symm ▸ h.2⟩
    split
    · exact colorInvariant_pickNextHost hinv1
    · exact hinv1

/-- `setPlayerReady` preserves the color invariant. -/
theorem colorInvariant_setPlayerReady {r : Room} (sid : String) (ready : Bool)
    (h : r.colorInvariant) : (r.setPlayerReady sid ready).1.colorInvariant := by
  unfold Room.setPlayerReady
  split
  · exact h
  · rename_i p hf
    split
    · have hmapfix : (updateFirst (fun q => q.sessionId == sid)
          (fun q => { q with ready := ready }) r.players).map (fun q => q.color) =
          r.players.map (fun q => q.color) :=
        updateFirst_map_eq (fun q => q.sessionId == sid)
          (fun q => { q with ready := ready })
          (fun q => q.color) (fun a => rfl) r.players
      exact ⟨h.1, hmapfix.symm ▸ h.2⟩
    · exact h

/-- Every registry event preserves the color invariant. -/
theorem colorInvariant_applyEvent {r : Room} (e : RoomEvent)
    (h : r.colorInvariant) : (applyEvent r e).colorInvariant := by
  cases e with
  | join sid sock nm pref =>
    simp only [applyEvent]
    split
    · exact h
    · exact colorInvariant_addOrUpdatePlayer sid sock nm pref h
  | identifyRejoin sid sock nm pref =>
    simp only [applyEvent]
    exact colorInvariant_addOrUpdatePlayer sid sock nm pref h
  | leave sid =>
    simp only [applyEvent]
    exact colorInvariant_removePlayer sid h
  | kick caller target =>
    simp only [applyEvent]
    split
    · exact h
    · rename_i tp hgt
      split
      · exact colorInvariant_removePlayer tp.sessionId h
      · exact h
  | disconnect sid =>
    simp only [applyEvent]
    exact colorInvariant_markPlayerDisconnected sid h
  | graceExpire sid =>
    simp only [applyEvent]
    exact colorInvariant_removePlayer sid h
  | changeColor sid color =>
    simp only [applyEvent]
    exact colorInvariant_setPlayerColor sid color h
  | setReady sid ready =>
    simp only [applyEvent]
    exact colorInvariant_setPlayerReady sid ready h

/-- The color invariant holds in every reachable room state. -/
theorem colorInvariant_applyEvents (evs : List RoomEvent) :
    ∀ r : Room, r.colorInvariant → (applyEvents r evs).colorInvariant := by
  induction evs with
  | nil => intro r h; exact h
  | cons e t ih =>
    intro r h
    exact ih (applyEvent r e) (colorInvariant_applyEvent e h)

/-- C2: in every room state reachable from room creation by any sequence of
registry operations (join, rejoin via identify, leave, kick, color change,
disconnect marking, grace-period removal, readiness change), `usedColors`
is exactly the set of colors held by the members, and no two members hold
the same color. -/
theorem c2_used_colors_exact (id nm sid sock pname : String)
    (pref : Option String) (evs : List RoomEvent) :
    (∀ c, c ∈ (applyEvents (createdRoom id nm sid sock pname pref) evs).usedColors ↔
        c ∈ (applyEvents (createdRoom id nm sid sock pname pref) evs).players.map
          (fun p => p.color)) ∧
      ((applyEvents (createdRoom id nm sid sock pname pref) evs).players.map
        (fun p => p.color)).Nodup := by
  have h0 : (Room.create id nm sid).colorInvariant := by
    constructor
    · exact List.nodup_nil
    · exact List.Perm.refl _
  have h1 : (createdRoom id nm sid sock pname pref).colorInvariant :=
    colorInvariant_addOrUpdatePlayer sid sock pname pref h0
  have h2 := colorInvariant_applyEvents evs _ h1
  exact ⟨fun c => h2.2.mem_iff, h2.2.nodup h2.1⟩

/-- If the room still has a connected member after `markPlayerDisconnected`
or `removePlayer`, re-election keeps the host a connected member. -/
theorem hostConnected_markPlayerDisconnected (r : Room) (sid : String)
    (h : r.hostConnected) : (r.markPlayerDisconnected sid).1.hostConnected := by
  unfold Room.markPlayerDisconnected
  split
  · exact h
  · rename_i p hf
    have hf' : r.players.find? (fun q => q.sessionId == sid) = some p := hf
    have hpsid : p.sessionId = sid := by
      have := List.find?_some hf'
      simpa using this
    split
    · rename_i hh
      intro hex
      have hex' : ∃ q ∈ (updateFirst (fun q => q.sessionId == sid)
          (fun q => { q with connected := false, socketId := none, ready := false })
          r.players), q.connected = true := hex
      exact pickNextHost_connected { r with
        players := updateFirst (fun q => q.sessionId == sid)
          (fun q => { q with connected := false, socketId := none, ready := false })
          r.players } hex'
    · rename_i hh
      have hsidne : sid ≠ r.hostSessionId := by
        intro hcontra
        exact hh (by simp [hpsid, hcontra])
      intro hex
      obtain ⟨q, hq, hqc⟩ := hex
      rcases mem_updateFirst hq with hq' | ⟨y, hy, rfl⟩
      · obtain ⟨hH, hHmem, hHsid, hHconn⟩ := h ⟨q, hq', hqc⟩
        refine ⟨hH, mem_updateFirst_of_neg hHmem ?_, hHsid, hHconn⟩
        simp only [beq_eq_false_iff_ne, ne_eq]
        rw [hHsid]
        exact fun hcontra => hsidne hcontra.symm
      · cases hqc

/-- `removePlayer` (leave, kick, grace-period removal) keeps the host a
connected member whenever one remains. -/
theorem hostConnected_removePlayer (r : Room) (sid : String)
    (h : r.hostConnected) : (r.removePlayer sid).1.hostConnected := by
  unfold Room.removePlayer
  split
  · exact h
  · rename_i p hf
    have hf' : r.players.find? (fun q => q.sessionId == sid) = some p := hf
    have hpsid : p.sessionId = sid := by
      have := List.find?_some hf'
      simpa using this
    split
    · rename_i hh
      intro hex
      have hex' : ∃ q ∈ r.players.eraseP (fun q => q.sessionId == sid),
          q.connected = true := hex
      exact pickNextHost_connected { r with
        players := r.players.eraseP (fun q => q.sessionId == sid),
        usedColors := r.usedColors.erase p.color } hex'
    · rename_i hh
      have hsidne : sid ≠ r.hostSessionId := by
        intro hcontra
        exact hh (by simp [hpsid, hcontra])
      intro hex
      obtain ⟨q, hq, hqc⟩ := hex
      have hq' : q ∈ r.players := List.mem_of_mem_eraseP hq
      obtain ⟨hH, hHmem, hHsid, hHconn⟩ := h ⟨q, hq', hqc⟩
      refine ⟨hH, mem_eraseP_of_neg hHmem ?_, hHsid, hHconn⟩
      simp only [beq_eq_false_iff_ne, ne_eq]
      rw [hHsid]
      exact fun hcontra => hsidne hcontra.symm

/-- C3, counterexample: a concrete reachable state violating the claim.
Room created by A; B joins; A disconnects (host re-elected to B);
B disconnects (all disconnected, host falls back to A); B re-identifies
within the grace period.  Now B is a connected member but the host A is
disconnected: `identify` does not re-elect the host. -/
theorem c3_counterexample :
    ¬ Room.hostConnected (applyEvents
        (createdRoom "room_1" "Room 1" "A" "s1" "Alice" none)
        [.join "B" "s2" "Bob" none, .disconnect "A", .disconnect "B",
         .identifyRejoin "B" "s3" "Bob" (some "#00D9FF")]) := by
  decide

/-- C3, amended: the operations that can disconnect or remove the host
(`markPlayerDisconnected` for transport loss, `removePlayer` for leave,
kick and grace-period expiry) do preserve the invariant that the host is a
connected member whenever any member is connected; but a join or a
grace-period re-identify runs `addOrUpdatePlayer`, which never re-elects
the host, so the invariant can be broken by a member (re)connecting to a
room whose host is disconnected. -/
theorem c3_host_reelection_on_disconnect_and_removal (r : Room) (sid : String)
    (h : r.hostConnected) :
    (r.markPlayerDisconnected sid).1.hostConnected ∧
      (r.removePlayer sid).1.hostConnected :=
  ⟨hostConnected_markPlayerDisconnected r sid h,
    hostConnected_removePlayer r sid h⟩

/-- Witness for the amended C3 at a concrete two-member room. -/
theorem c3_host_reelection_on_disconnect_and_removal_witness :
    Room.hostConnected (applyEvents (createdRoom "r" "n" "A" "s1" "Alice" none)
        [.join "B" "s2" "Bob" none]) ∧
      ((applyEvents (createdRoom "r" "n" "A" "s1" "Alice" none)
        [.join "B" "s2" "Bob" none]).markPlayerDisconnected "A").1.hostConnected ∧
      ((applyEvents (createdRoom "r" "n" "A" "s1" "Alice" none)
        [.join "B" "s2" "Bob" none]).removePlayer "A").1.hostConnected :=
  ⟨by decide,
    c3_host_reelection_on_disconnect_and_removal _ "A" (by decide)⟩

/-- C6, counterexample: the relay honors any client-supplied numeric
sequence, so a host submitting sequence 5 and then sequence 3 stores
snapshots whose stamped sequences are 5 and then 3 — not strictly
increasing. -/
theorem c6_counterexample :
    ((Room.mk "r" "n" "A" [RoomPlayer.mk "A" (some "s1") "Al" "#FF1493" false true]
        4 true ["#FF1493"] false none
        (some (GameInstance.mk 7 (PieceDealer.mk 7 #[]) [] 0 0 none []))).handleGameState
        "s1" (GamePayload.mk 0 (some 5))
        |>.handleGameState "s1" (GamePayload.mk 1 (some 3))
        |>.currentGame.map GameInstance.stateSequence) = some 3 ∧
      ((Room.mk "r" "n" "A" [RoomPlayer.mk "A" (some "s1") "Al" "#FF1493" false true]
        4 true ["#FF1493"] false none
        (some (GameInstance.mk 7 (PieceDealer.mk 7 #[]) [] 0 0 none []))).handleGameState
        "s1" (GamePayload.mk 0 (some 5))
        |>.currentGame.map GameInstance.stateSequence) = some 5 ∧
      ¬ ((5 : Int) < 3) := by
  decide

/-- C6, amended: when the client payload has no numeric sequence the relay
assigns the previous stored sequence plus one (a strict increase), and a
client-supplied numeric sequence is stored exactly as given (so
monotonicity holds only for the auto-incremented case); the stamped payload
is stored as `lastStatePayload`. -/
theorem c6_sequence_stamping (g : GameInstance) (p : GamePayload) :
    (p.sequence = none →
      (gameStateStep g p).stateSequence = g.stateSequence + 1 ∧
        g.stateSequence < (gameStateStep g p).stateSequence) ∧
    (∀ s, p.sequence = some s → (gameStateStep g p).stateSequence = s) ∧
    (gameStateStep g p).lastStatePayload =
      some ⟨p.data, (gameStateStep g p).stateSequence, g.lastInputByPlayer⟩ := by
  refine ⟨?_, ?_, ?_⟩
  · intro hs
    constructor
    · simp [gameStateStep, hs]
    · simp [gameStateStep, hs]
  · intro s hs
    simp [gameStateStep, hs]
  · cases hs : p.sequence with
    | none => simp [gameStateStep, hs]
    | some s => simp [gameStateStep, hs]

/-- Witness for the amended C6: with no client sequence, a snapshot after
stored sequence 0 is stamped 1. -/
theorem c6_sequence_stamping_witness :
    (gameStateStep (GameInstance.mk 7 (PieceDealer.mk 7 #[]) [] 0 0 none [])
      (GamePayload.mk 0 none)).stateSequence = 0 + 1 :=
  ((c6_sequence_stamping (GameInstance.mk 7 (PieceDealer.mk 7 #[]) [] 0 0 none [])
    (GamePayload.mk 0 none)).1 rfl).1

/-- `addOrUpdatePlayer` never changes a room's privacy flag or access code. -/
theorem addOrUpdatePlayer_preserves_meta (r : Room)
    (sid sock nm : String) (pref : Option String) :
    (r.addOrUpdatePlayer sid sock nm pref).1.accessCode = r.accessCode ∧
      (r.addOrUpdatePlayer sid sock nm pref).1.isPrivate = r.isPrivate := by
  unfold Room.addOrUpdatePlayer
  split
  · exact ⟨rfl, rfl⟩
  · split
    · exact ⟨rfl, rfl⟩
    · split
      · exact ⟨rfl, rfl⟩
      · exact ⟨rfl, rfl⟩

/-- A successfully created private room stores a code consisting only of
the characters `[A-Z0-9]` (the create-side strip). -/
theorem createRoomHandler_private_stored_code
    (raw roomId roomName sid sock nm : String) (pref : Option String)
    (r1 : Room)
    (hc : createRoomHandler true (some raw) roomId roomName sid sock nm pref =
      Except.ok r1) :
    r1.isPrivate = true ∧ ∃ code, r1.accessCode = some code ∧
      ∀ ch ∈ code.toList, isUpperAlnum ch = true := by
  unfold createRoomHandler at hc
  simp only [if_true] at hc
  split at hc
  · cases hc
  · rename_i codeOpt hlen
    split at hc
    · rename_i pr y hsome
      cases hc
      have h1 : ((Room.mk roomId roomName sid [] 4 false [] true codeOpt
          none).addOrUpdatePlayer sid sock nm pref).1 = r1 :=
        congrArg Prod.fst hsome
      have hacc : r1.accessCode = codeOpt := by
        rw [← h1]
        exact (addOrUpdatePlayer_preserves_meta
          (Room.mk roomId roomName sid [] 4 false [] true codeOpt none)
          sid sock nm pref).1
      have hpriv : r1.isPrivate = true := by
        rw [← h1]
        exact (addOrUpdatePlayer_preserves_meta
          (Room.mk roomId roomName sid [] 4 false [] true codeOpt none)
          sid sock nm pref).2
      split at hlen
      · cases hlen
      · rename_i h4
        injection hlen with h5
        refine ⟨hpriv,
          ⟨if 8 < (normalizeCreateCode raw).length then
              String.mk ((normalizeCreateCode raw).toList.take 8)
            else normalizeCreateCode raw, ?_, ?_⟩⟩
        · rw [hacc, ← h5]
        · intro ch hch
          by_cases h8 : 8 < (normalizeCreateCode raw).length
          · rw [if_pos h8] at hch
            have hch2 : ch ∈ (normalizeCreateCode raw).toList :=
              List.take_subset _ _ hch
            exact List.of_mem_filter hch2
          · rw [if_neg h8] at hch
            exact List.of_mem_filter hch
    · cases hc

/-- C9: creating a private room whose access code normalizes (trim,
uppercase, strip non-alphanumerics) to fewer than 4 characters fails with
the validation error and no room; and the concrete input `"ab12!!"`
normalizes to `"AB12"` and creates a room storing that code. -/
theorem c9_private_room_code_validation
    (raw roomId roomName sid sock nm : String) (pref : Option String)
    (h : (normalizeCreateCode raw).length < 4) :
    createRoomHandler true (some raw) roomId roomName sid sock nm pref =
      Except.error "Access code required" ∧
    (createRoomHandler true (some "ab12!!") "r1" "Room 1" "A" "s1" "Alice"
      none).toOption.map Room.accessCode = some (some "AB12") := by
  constructor
  · simp [createRoomHandler, h]
  · decide

/-- Witness for C9 at the claim's concrete inputs: code `"AB"` (normalized
length 2) is rejected, `"ab12!!"` succeeds storing `"AB12"`. -/
theorem c9_private_room_code_validation_witness :
    (normalizeCreateCode "AB").length < 4 ∧
      (createRoomHandler true (some "AB") "r1" "Room 1" "A" "s1" "Alice" none =
        Except.error "Access code required" ∧
      (createRoomHandler true (some "ab12!!") "r1" "Room 1" "A" "s1" "Alice"
        none).toOption.map Room.accessCode = some (some "AB12")) :=
  ⟨by decide,
    c9_private_room_code_validation "AB" "r1" "Room 1" "A" "s1" "Alice" none
      (by decide)⟩

/-- C10, counterexample: the creation input `"AB12 "` contains a
non-alphanumeric character (the trailing space), yet supplying the
identical raw string at join is accepted, because the join side trims it
away and the create side stripped it — contradicting the claim that every
such input is rejected at join. -/
theorem c10_counterexample :
    ((createRoomHandler true (some "AB12 ") "r1" "Room 1" "A" "s1" "Alice"
      none).toOption.map (fun r => joinRoomAccessAllowed r (some "AB12 "))) =
        some true ∧
      ("AB12 ".toList.any (fun c => !(c.isAlpha || c.isDigit))) = true := by
  decide

/-- C10, amended: a join of a private room created from a raw code is
accepted iff the trimmed-uppercased (non-alphanumerics retained) supplied
code is nonempty and character-for-character equal to the stored code;
consequently any supplied code whose trimmed-uppercased form still contains
a non-alphanumeric character is rejected (the stored code has only
`[A-Z0-9]`), but an input whose non-alphanumerics are only leading or
trailing whitespace is accepted when replayed verbatim. -/
theorem c10_join_requires_exact_normalized_match
    (rawC rawJ roomId roomName sid sock nm : String) (pref : Option String)
    (r1 : Room)
    (hc : createRoomHandler true (some rawC) roomId roomName sid sock nm pref =
      Except.ok r1) :
    (joinRoomAccessAllowed r1 (some rawJ) = true ↔
      (normalizeJoinCode rawJ ≠ "" ∧ r1.accessCode = some (normalizeJoinCode rawJ))) ∧
    ((normalizeJoinCode rawJ).toList.any (fun ch => !(isUpperAlnum ch)) = true →
      joinRoomAccessAllowed r1 (some rawJ) = false) := by
  obtain ⟨hpriv, code, hcode, hchars⟩ :=
    createRoomHandler_private_stored_code rawC roomId roomName sid sock nm pref r1 hc
  have hiff : joinRoomAccessAllowed r1 (some rawJ) = true ↔
      (normalizeJoinCode rawJ ≠ "" ∧ r1.accessCode = some (normalizeJoinCode rawJ)) := by
    by_cases hemp : normalizeJoinCode rawJ = ""
    · simp [joinRoomAccessAllowed, hpriv, hcode, hemp]
    · simp only [joinRoomAccessAllowed, hpriv, if_true, Option.map_some', hcode]
      constructor
      · intro hall
        rw [if_neg (by simpa using hemp)] at hall
        have : normalizeJoinCode rawJ = code := by simpa using hall
        exact ⟨hemp, by rw [this]⟩
      · intro ⟨_, heq⟩
        rw [if_neg (by simpa using hemp)]
        injection heq with heq2
        simp [heq2]
  refine ⟨hiff, ?_⟩
  intro hbad
  cases hall : joinRoomAccessAllowed r1 (some rawJ) with
  | false => rfl
  | true =>
    obtain ⟨hne, heq⟩ := hiff.mp hall
    rw [hcode] at heq
    injection heq with heq2
    obtain ⟨ch, hchmem, hchbad⟩ := List.any_eq_true.mp hbad
    rw [← heq2] at hchmem
    have := hchars ch hchmem
    rw [this] at hchbad
    cases hchbad

/-- Witness for the amended C10: a room created with code `"AB12"`; a join
with `"ab12"` is accepted (normalizes to the stored code), and `"AB1!"`
has a non-alphanumeric so it is rejected. -/
theorem c10_join_requires_exact_normalized_match_witness :
    ((joinRoomAccessAllowed
        (Room.mk "r1" "Room 1" "A"
          [RoomPlayer.mk "A" (some "s1") "Alice" "#FF1493" false true]
          4 false ["#FF1493"] true (some "AB12") none) (some "AB1!") = true ↔
      (normalizeJoinCode "AB1!" ≠ "" ∧
        (Room.mk "r1" "Room 1" "A"
          [RoomPlayer.mk "A" (some "s1") "Alice" "#FF1493" false true]
          4 false ["#FF1493"] true (some "AB12") none).accessCode =
          some (normalizeJoinCode "AB1!")))) ∧
    ((normalizeJoinCode "AB1!").toList.any (fun ch => !(isUpperAlnum ch)) = true →
      joinRoomAccessAllowed
        (Room.mk "r1" "Room 1" "A"
          [RoomPlayer.mk "A" (some "s1") "Alice" "#FF1493" false true]
          4 false ["#FF1493"] true (some "AB12") none) (some "AB1!") = false) :=
  c10_join_requires_exact_normalized_match "AB12" "AB1!" "r1" "Room 1" "A" "s1"
    "Alice" none
    (Room.mk "r1" "Room 1" "A"
      [RoomPlayer.mk "A" (some "s1") "Alice" "#FF1493" false true]
      4 false ["#FF1493"] true (some "AB12") none)
    (by rfl)

/-- C8: a clear of n ≥ 1 rows entering with `comboChain = c` adds
`round(100·(1 + 0.1·c)·(1 + 0.2·(n−1))) · n` to the team score and bumps
the combo chain to `c + 1`; at n = 4, c = 2 the per-line score is 192 and
the total gain 768. -/
theorem c8_line_clear_scoring (st : EngineState) (selfId : Nat)
    (h : 1 ≤ (sweepBoard st.board st.boardWidth).2) :
    (clearLines st selfId).sharedStats.score =
      st.sharedStats.score +
        round ((100 : ℚ) * (1 + 0.1 * st.sharedStats.comboChain) *
            (1 + 0.2 * (((sweepBoard st.board st.boardWidth).2 : ℚ) - 1))) *
          ((sweepBoard st.board st.boardWidth).2 : Int) ∧
    (clearLines st selfId).sharedStats.comboChain =
      st.sharedStats.comboChain + 1 ∧
    round ((100 : ℚ) * (1 + 0.1 * 2) * (1 + 0.2 * (4 - 1))) = 192 ∧
    (192 : Int) * 4 = 768 := by
  have hnz : ¬((sweepBoard st.board st.boardWidth).2 = 0) := by omega
  refine ⟨?_, ?_, ?_, by norm_num⟩
  · simp only [clearLines, hnz, if_false, BASE_LINE_SCORE, STREAK_BONUS_STEP,
      MULTI_LINE_BONUS_STEP]
  · simp only [clearLines, hnz, if_false]
  · have h1 : (100 : ℚ) * (1 + 0.1 * 2) * (1 + 0.2 * (4 - 1)) = 192 := by
      norm_num
    rw [h1]
    norm_num [round_eq]

/-- Witness for C8: a board of four full rows at `comboChain = 2` — the
claim's scenario (per-line 192, total gain 768). -/
theorem c8_line_clear_scoring_witness :
    1 ≤ (sweepBoard (EngineState.mk (List.replicate 4 (List.replicate 2 1)) 2 []
        (SharedStats.mk 0 0 1 2 none) false false).board
        (EngineState.mk (List.replicate 4 (List.replicate 2 1)) 2 []
        (SharedStats.mk 0 0 1 2 none) false false).boardWidth).2 ∧
    ((clearLines (EngineState.mk (List.replicate 4 (List.replicate 2 1)) 2 []
        (SharedStats.mk 0 0 1 2 none) false false) 0).sharedStats.score =
      (EngineState.mk (List.replicate 4 (List.replicate 2 1)) 2 []
        (SharedStats.mk 0 0 1 2 none) false false).sharedStats.score +
        round ((100 : ℚ) * (1 + 0.1 *
            (EngineState.mk (List.replicate 4 (List.replicate 2 1)) 2 []
              (SharedStats.mk 0 0 1 2 none) false false).sharedStats.comboChain) *
            (1 + 0.2 * (((sweepBoard
              (EngineState.mk (List.replicate 4 (List.replicate 2 1)) 2 []
                (SharedStats.mk 0 0 1 2 none) false false).board
              (EngineState.mk (List.replicate 4 (List.replicate 2 1)) 2 []
                (SharedStats.mk 0 0 1 2 none) false false).boardWidth).2 : ℚ) - 1))) *
          ((sweepBoard (EngineState.mk (List.replicate 4 (List.replicate 2 1)) 2 []
              (SharedStats.mk 0 0 1 2 none) false false).board
            (EngineState.mk (List.replicate 4 (List.replicate 2 1)) 2 []
              (SharedStats.mk 0 0 1 2 none) false false).boardWidth).2 : Int) ∧
      (clearLines (EngineState.mk (List.replicate 4 (List.replicate 2 1)) 2 []
          (SharedStats.mk 0 0 1 2 none) false false) 0).sharedStats.comboChain =
        (EngineState.mk (List.replicate 4 (List.replicate 2 1)) 2 []
          (SharedStats.mk 0 0 1 2 none) false false).sharedStats.comboChain + 1 ∧
      round ((100 : ℚ) * (1 + 0.1 * 2) * (1 + 0.2 * (4 - 1))) = 192 ∧
      (192 : Int) * 4 = 768) :=
  ⟨by decide,
    c8_line_clear_scoring
      (EngineState.mk (List.replicate 4 (List.replicate 2 1)) 2 []
        (SharedStats.mk 0 0 1 2 none) false false) 0 (by decide)⟩

/-- If `find?` hits an element and `f` keeps it matching, `find?` after
`updateFirst` returns the updated element. -/
theorem find?_updateFirst (m : α → Bool) (f : α → α) :
    ∀ {l : List α} {p : α}, l.find? m = some p → m (f p) = true →
      (updateFirst m f l).find? m = some (f p) := by
  intro l
  induction l with
  | nil => intro p h _; simp [List.find?] at h
  | cons a t ih =>
    intro p h hm
    by_cases hma : m a
    · rw [List.find?_cons_of_pos _ hma] at h
      cases h
      simp only [updateFirst, if_pos hma]
      rw [List.find?_cons_of_pos _ hm]
    · rw [List.find?_cons_of_neg _ hma] at h
      simp only [updateFirst, if_neg hma]
      rw [List.find?_cons_of_neg _ hma]
      exact ih h hm

/-- The `checkCollision` cell loop over cells that are all in-bounds and
unlocked never sets `withLocked`, and sets `collides`/`withActive` exactly
when some (non-negative-row) cell overlaps another active piece. -/
theorem checkCellsAux_no_locked (board : List (List Nat)) (w : Nat)
    (players : List EnginePlayer) (selfId : Nat) :
    ∀ (cells : List (Int × Int)) (acc : CollisionResult),
      (∀ c ∈ cells, 0 ≤ c.1 ∧ c.1 < (w : Int) ∧ c.2 < (BOARD_HEIGHT : Int) ∧
        (0 ≤ c.2 → boardAt board c.2 c.1 = 0)) →
      checkCellsAux board w players selfId cells acc =
        { collides := acc.collides || cells.any (fun c =>
            decide (0 ≤ c.2) && isCellOccupiedByOtherPiece players c.1 c.2 selfId),
          withLocked := acc.withLocked,
          withActive := acc.withActive || cells.any (fun c =>
            decide (0 ≤ c.2) &&
              isCellOccupiedByOtherPiece players c.1 c.2 selfId) } := by
  intro cells
  induction cells with
  | nil => intro acc hsafe; simp [checkCellsAux]
  | cons c rest ih =>
    intro acc hsafe
    obtain ⟨h1, h2, h3, h4⟩ := hsafe c (List.mem_cons_self _ _)
    have hrest : ∀ x ∈ rest, 0 ≤ x.1 ∧ x.1 < (w : Int) ∧
        x.2 < (BOARD_HEIGHT : Int) ∧ (0 ≤ x.2 → boardAt board x.2 x.1 = 0) :=
      fun x hx => hsafe x (List.mem_cons_of_mem _ hx)
    have hoob : ¬(c.1 < 0 ∨ (w : Int) ≤ c.1 ∨ (BOARD_HEIGHT : Int) ≤ c.2) := by
      push_neg
      exact ⟨by omega, by omega, by omega⟩
    simp only [checkCellsAux]
    rw [if_neg hoob]
    by_cases hneg : c.2 < 0
    · rw [if_pos hneg]
      rw [ih acc hrest]
      have hd : decide (0 ≤ c.2) = false := by
        simp only [decide_eq_false_iff_not]
        omega
      simp [List.any_cons, hd]
    · rw [if_neg hneg]
      have hb : ¬(boardAt board c.2 c.1 ≠ 0) := by
        simpa using h4 (by omega)
      rw [if_neg hb]
      have hd : decide (0 ≤ c.2) = true := by
        simp only [decide_eq_true_eq]
        omega
      by_cases hocc : isCellOccupiedByOtherPiece players c.1 c.2 selfId = true
      · rw [if_pos hocc]
        rw [ih _ hrest]
        simp [List.any_cons, hd, hocc]
      · rw [if_neg hocc]
        rw [ih acc hrest]
        have hocc' : isCellOccupiedByOtherPiece players c.1 c.2 selfId = false :=
          by simpa using hocc
        simp [List.any_cons, hocc']

/-- A placement whose cells are all in-bounds and unlocked but overlap some
other player's active piece is classified as a pure soft collision. -/
theorem checkCollision_soft (st : EngineState) (selfId : Nat)
    (piece : PieceShape) (pos : Pos)
    (hsafe : ∀ c ∈ pieceCells piece pos,
      0 ≤ c.1 ∧ c.1 < (st.boardWidth : Int) ∧ c.2 < (BOARD_HEIGHT : Int) ∧
        (0 ≤ c.2 → boardAt st.board c.2 c.1 = 0))
    (hactive : ∃ c ∈ pieceCells piece pos,
      0 ≤ c.2 ∧ isCellOccupiedByOtherPiece st.players c.1 c.2 selfId = true) :
    checkCollision st selfId piece pos = ⟨true, false, true⟩ := by
  unfold checkCollision
  rw [checkCellsAux_no_locked st.board st.boardWidth st.players selfId
    (pieceCells piece pos) ⟨false, false, false⟩ hsafe]
  have hany : (pieceCells piece pos).any (fun c =>
      decide (0 ≤ c.2) &&
        isCellOccupiedByOtherPiece st.players c.1 c.2 selfId) = true := by
    obtain ⟨c, hc, h0, hocc⟩ := hactive
    exact List.any_eq_true.mpr ⟨c, hc, by simp [h0, hocc]⟩
  simp [hany]

/-- C7: a one-row drop whose destination cells are all in-bounds and free of
locked blocks but overlap another player's falling piece is blocked without
locking: the board, the shared statistics and the board-over flag are
unchanged, and the player keeps its position, piece and `gameOver` flag
(only the drop counter is reset). -/
theorem c7_soft_drop_blocked (st : EngineState) (selfId : Nat)
    (newNext : PieceShape) (p : EnginePlayer)
    (hp : st.players.find? (fun q => q.id == selfId) = some p)
    (hsafe : ∀ c ∈ pieceCells p.currentPiece
        (Pos.mk p.position.x (p.position.y + 1)),
      0 ≤ c.1 ∧ c.1 < (st.boardWidth : Int) ∧ c.2 < (BOARD_HEIGHT : Int) ∧
        (0 ≤ c.2 → boardAt st.board c.2 c.1 = 0))
    (hactive : ∃ c ∈ pieceCells p.currentPiece
        (Pos.mk p.position.x (p.position.y + 1)),
      0 ≤ c.2 ∧ isCellOccupiedByOtherPiece st.players c.1 c.2 selfId = true) :
    (dropPlayer st selfId newNext).board = st.board ∧
    (dropPlayer st selfId newNext).sharedStats = st.sharedStats ∧
    (dropPlayer st selfId newNext).isGameOver = st.isGameOver ∧
    (dropPlayer st selfId newNext).players.find? (fun q => q.id == selfId) =
      some { p with dropCounter := 0 } := by
  have hcol : checkCollision st selfId p.currentPiece
      (Pos.mk p.position.x (p.position.y + 1)) = ⟨true, false, true⟩ :=
    checkCollision_soft st selfId p.currentPiece _ hsafe hactive
  have hm : (p.id == selfId) = true := by simpa using List.find?_some hp
  have hred : dropPlayer st selfId newNext =
      { st with players := updateFirst (fun q => q.id == selfId) (fun q => { q with dropCounter := 0 }) st.players } := by
    unfold dropPlayer
    rw [hp]
    simp [hcol]
  refine ⟨by rw [hred], by rw [hred], by rw [hred], ?_⟩
  rw [hred]
  exact find?_updateFirst (fun q => q.id == selfId)
    (fun q : EnginePlayer => { q with dropCounter := 0 }) hp hm

/-- Witness for C7: on an empty 3-wide board, player 0's 1×1 piece at
(0,4) drops toward (0,5), which is covered by player 1's falling piece —
the drop is blocked with nothing merged and nobody eliminated. -/
theorem c7_soft_drop_blocked_witness :
    (EngineState.mk (List.replicate 20 (List.replicate 3 0)) 3
        [EnginePlayer.mk 0 [[1]] [[1]] (Pos.mk 0 4) false 0 1000 0 0 1 0,
         EnginePlayer.mk 1 [[1]] [[1]] (Pos.mk 0 5) false 0 1000 0 0 1 2]
        (SharedStats.mk 0 0 1 0 none) false false).players.find?
        (fun q => q.id == 0) =
      some (EnginePlayer.mk 0 [[1]] [[1]] (Pos.mk 0 4) false 0 1000 0 0 1 0) ∧
    ((dropPlayer (EngineState.mk (List.replicate 20 (List.replicate 3 0)) 3
        [EnginePlayer.mk 0 [[1]] [[1]] (Pos.mk 0 4) false 0 1000 0 0 1 0,
         EnginePlayer.mk 1 [[1]] [[1]] (Pos.mk 0 5) false 0 1000 0 0 1 2]
        (SharedStats.mk 0 0 1 0 none) false false) 0 [[1]]).board =
      (EngineState.mk (List.replicate 20 (List.replicate 3 0)) 3
        [EnginePlayer.mk 0 [[1]] [[1]] (Pos.mk 0 4) false 0 1000 0 0 1 0,
         EnginePlayer.mk 1 [[1]] [[1]] (Pos.mk 0 5) false 0 1000 0 0 1 2]
        (SharedStats.mk 0 0 1 0 none) false false).board ∧
      (dropPlayer (EngineState.mk (List.replicate 20 (List.replicate 3 0)) 3
        [EnginePlayer.mk 0 [[1]] [[1]] (Pos.mk 0 4) false 0 1000 0 0 1 0,
         EnginePlayer.mk 1 [[1]] [[1]] (Pos.mk 0 5) false 0 1000 0 0 1 2]
        (SharedStats.mk 0 0 1 0 none) false false) 0 [[1]]).sharedStats =
      (EngineState.mk (List.replicate 20 (List.replicate 3 0)) 3
        [EnginePlayer.mk 0 [[1]] [[1]] (Pos.mk 0 4) false 0 1000 0 0 1 0,
         EnginePlayer.mk 1 [[1]] [[1]] (Pos.mk 0 5) false 0 1000 0 0 1 2]
        (SharedStats.mk 0 0 1 0 none) false false).sharedStats ∧
      (dropPlayer (EngineState.mk (List.replicate 20 (List.replicate 3 0)) 3
        [EnginePlayer.mk 0 [[1]] [[1]] (Pos.mk 0 4) false 0 1000 0 0 1 0,
         EnginePlayer.mk 1 [[1]] [[1]] (Pos.mk 0 5) false 0 1000 0 0 1 2]
        (SharedStats.mk 0 0 1 0 none) false false) 0 [[1]]).isGameOver =
      (EngineState.mk (List.replicate 20 (List.replicate 3 0)) 3
        [EnginePlayer.mk 0 [[1]] [[1]] (Pos.mk 0 4) false 0 1000 0 0 1 0,
         EnginePlayer.mk 1 [[1]] [[1]] (Pos.mk 0 5) false 0 1000 0 0 1 2]
        (SharedStats.mk 0 0 1 0 none) false false).isGameOver ∧
      (dropPlayer (EngineState.mk (List.replicate 20 (List.replicate 3 0)) 3
        [EnginePlayer.mk 0 [[1]] [[1]] (Pos.mk 0 4) false 0 1000 0 0 1 0,
         EnginePlayer.mk 1 [[1]] [[1]] (Pos.mk 0 5) false 0 1000 0 0 1 2]
        (SharedStats.mk 0 0 1 0 none) false false) 0 [[1]]).players.find?
        (fun q => q.id == 0) =
      some { EnginePlayer.mk 0 [[1]] [[1]] (Pos.mk 0 4) false 0 1000 0 0 1 0 with
        dropCounter := 0 }) :=
  ⟨by decide,
    c7_soft_drop_blocked
      (EngineState.mk (List.replicate 20 (List.replicate 3 0)) 3
        [EnginePlayer.mk 0 [[1]] [[1]] (Pos.mk 0 4) false 0 1000 0 0 1 0,
         EnginePlayer.mk 1 [[1]] [[1]] (Pos.mk 0 5) false 0 1000 0 0 1 2]
        (SharedStats.mk 0 0 1 0 none) false false) 0 [[1]]
      (EnginePlayer.mk 0 [[1]] [[1]] (Pos.mk 0 4) false 0 1000 0 0 1 0)
      (by decide) (by decide) (by decide)⟩

/-- C4: a room member re-identifying with its session id before the grace
timer fires has the timer cancelled and is restored connected to the same
room with its previous color; if the game is live and a snapshot is stored,
the rejoining socket receives that snapshot. -/
theorem c4_reconnect_within_grace (st : ServerState)
    (socketId sid rid freshId defaultName : String)
    (s : Session) (room : Room) (member : RoomPlayer)
    (htrim : jsTrim sid = sid)
    (hst : st.sessions.find? (fun q => q.id == sid) = some s)
    (hroomid : s.roomId = some rid)
    (hgr : st.rooms.find? (fun r => r.id == rid) = some room)
    (hmember : room.players.find? (fun q => q.sessionId == sid) = some member) :
    ((identifyHandler st socketId (some sid) none freshId defaultName).1.sessions.find?
        (fun q => q.id == sid)).map
        (fun q => (q.disconnectTimer, q.connected, q.roomId, q.color)) =
      some (false, true, some rid, some member.color) ∧
    (((identifyHandler st socketId (some sid) none freshId defaultName).1.rooms.find?
        (fun r => r.id == rid)).bind
        (fun r => r.players.find? (fun q => q.sessionId == sid))).map
        (fun q => (q.color, q.connected)) = some (member.color, true) ∧
    (∀ g snap, room.gameStarted = true → room.currentGame = some g →
      g.lastStatePayload = some snap →
      Emit.gameState snap ∈
        (identifyHandler st socketId (some sid) none freshId defaultName).2) := by
  have hsid : s.id = sid := by simpa using List.find?_some hst
  have hmsid : (member.sessionId == sid) = true := by
    simpa using List.find?_some hmember
  have hroomatch : (room.id == rid) = true := by
    simpa using List.find?_some hgr
  have hfJ : (updateFirst (fun q => q.sessionId == sid)
      (fun q : RoomPlayer => { q with socketId := some socketId, name := s.name, connected := true, ready := false })
      room.players).find? (fun q => q.sessionId == sid) =
      some { member with socketId := some socketId, name := s.name, connected := true, ready := false } :=
    find?_updateFirst _ _ hmember (by simpa using hmsid)
  have hfA : (updateFirst (fun q : Session => q.id == sid)
      (fun q : Session => { q with socketId := some socketId, connected := true, disconnectTimer := false })
      st.sessions).find? (fun q => q.id == sid) =
      some { s with socketId := some socketId, connected := true, disconnectTimer := false } :=
    find?_updateFirst _ _ hst (by simp [hsid])
  have hfC : (updateFirst (fun q : Session => q.id == sid)
      (fun q : Session => { q with color := some member.color })
      (updateFirst (fun q : Session => q.id == sid)
        (fun q : Session => { q with socketId := some socketId, connected := true, disconnectTimer := false })
        st.sessions)).find? (fun q => q.id == sid) =
      some { s with socketId := some socketId, connected := true, disconnectTimer := false, color := some member.color } :=
    find?_updateFirst _ _ hfA (by simp [hsid])
  have hsess : (identifyHandler st socketId (some sid) none freshId
      defaultName).1.sessions =
      updateFirst (fun q : Session => q.id == sid)
        (fun q : Session => { q with color := some member.color })
        (updateFirst (fun q : Session => q.id == sid)
          (fun q : Session => { q with socketId := some socketId, connected := true, disconnectTimer := false })
          st.sessions) := by
    simp only [identifyHandler, Option.map_some', htrim, getSession, hst,
      attachSessionToSocket, hsid, hroomid, getRoom, hgr,
      Room.addOrUpdatePlayer, Room.getPlayerBySession, hmember, hfJ,
      Option.isSome_some, if_true]
  have hrooms : (identifyHandler st socketId (some sid) none freshId
      defaultName).1.rooms =
      updateFirst (fun r : Room => r.id == rid)
        (fun _ =>
          let pl := updateFirst (fun q : RoomPlayer => q.sessionId == sid)
            (fun q : RoomPlayer => { q with socketId := some socketId, name := s.name, connected := true, ready := false })
            room.players
          { room with players := pl }) st.rooms := by
    simp only [identifyHandler, Option.map_some', htrim, getSession, hst,
      attachSessionToSocket, hsid, hroomid, getRoom, hgr,
      Room.addOrUpdatePlayer, Room.getPlayerBySession, hmember, hfJ,
      Option.isSome_some, if_true]
  have hfR : (updateFirst (fun r : Room => r.id == rid)
      (fun _ =>
        let pl := updateFirst (fun q : RoomPlayer => q.sessionId == sid)
          (fun q : RoomPlayer => { q with socketId := some socketId, name := s.name, connected := true, ready := false })
          room.players
        { room with players := pl }) st.rooms).find? (fun r => r.id == rid) =
      some { room with players := updateFirst (fun q : RoomPlayer => q.sessionId == sid) (fun q : RoomPlayer => { q with socketId := some socketId, name := s.name, connected := true, ready := false }) room.players } :=
    find?_updateFirst _ _ hgr (by simpa using hroomatch)
  refine ⟨?_, ?_, ?_⟩
  · rw [hsess, hfC]
    simp [hroomid]
  · rw [hrooms, hfR]
    simp [hfJ]
  · intro g snap hgs hcg hsnap
    simp only [identifyHandler, Option.map_some', htrim, getSession, hst,
      attachSessionToSocket, hsid, hroomid, getRoom, hgr,
      Room.addOrUpdatePlayer, Room.getPlayerBySession, hmember, hfJ,
      Option.isSome_some, if_true, hgs, hcg, hsnap]
    simp

/-- Witness for C4: a one-member room with a live game and stored snapshot;
the disconnected member re-identifies and is restored with its color, and
the conclusion includes the snapshot replay. -/
theorem c4_reconnect_within_grace_witness :
    jsTrim "S1" = "S1" ∧
    (ServerState.mk [Session.mk "S1" "Alice" (some "R1") (some "#FF1493") false false none true] [Room.mk "R1" "Room 1" "S1" [RoomPlayer.mk "S1" none "Alice" "#FF1493" false false] 4 true ["#FF1493"] false none (some (GameInstance.mk 7 (PieceDealer.mk 7 #[]) [] 3 0 (some (StoredSnapshot.mk 9 3 [])) []))] [SocketPlayer.mk "sock2" none "P1" none]).sessions.find? (fun q => q.id == "S1") = some (Session.mk "S1" "Alice" (some "R1") (some "#FF1493") false false none true) ∧
    (Session.mk "S1" "Alice" (some "R1") (some "#FF1493") false false none true).roomId = some "R1" ∧
    (ServerState.mk [Session.mk "S1" "Alice" (some "R1") (some "#FF1493") false false none true] [Room.mk "R1" "Room 1" "S1" [RoomPlayer.mk "S1" none "Alice" "#FF1493" false false] 4 true ["#FF1493"] false none (some (GameInstance.mk 7 (PieceDealer.mk 7 #[]) [] 3 0 (some (StoredSnapshot.mk 9 3 [])) []))] [SocketPlayer.mk "sock2" none "P1" none]).rooms.find? (fun r => r.id == "R1") = some (Room.mk "R1" "Room 1" "S1" [RoomPlayer.mk "S1" none "Alice" "#FF1493" false false] 4 true ["#FF1493"] false none (some (GameInstance.mk 7 (PieceDealer.mk 7 #[]) [] 3 0 (some (StoredSnapshot.mk 9 3 [])) []))) ∧
    (Room.mk "R1" "Room 1" "S1" [RoomPlayer.mk "S1" none "Alice" "#FF1493" false false] 4 true ["#FF1493"] false none (some (GameInstance.mk 7 (PieceDealer.mk 7 #[]) [] 3 0 (some (StoredSnapshot.mk 9 3 [])) []))).players.find? (fun q => q.sessionId == "S1") = some (RoomPlayer.mk "S1" none "Alice" "#FF1493" false false) ∧
    (((identifyHandler (ServerState.mk [Session.mk "S1" "Alice" (some "R1") (some "#FF1493") false false none true] [Room.mk "R1" "Room 1" "S1" [RoomPlayer.mk "S1" none "Alice" "#FF1493" false false] 4 true ["#FF1493"] false none (some (GameInstance.mk 7 (PieceDealer.mk 7 #[]) [] 3 0 (some (StoredSnapshot.mk 9 3 [])) []))] [SocketPlayer.mk "sock2" none "P1" none]) "sock2" (some "S1") none "F" "P1").1.sessions.find? (fun q => q.id == "S1")).map
        (fun q => (q.disconnectTimer, q.connected, q.roomId, q.color)) =
      some (false, true, some "R1", some (RoomPlayer.mk "S1" none "Alice" "#FF1493" false false).color) ∧
    (((identifyHandler (ServerState.mk [Session.mk "S1" "Alice" (some "R1") (some "#FF1493") false false none true] [Room.mk "R1" "Room 1" "S1" [RoomPlayer.mk "S1" none "Alice" "#FF1493" false false] 4 true ["#FF1493"] false none (some (GameInstance.mk 7 (PieceDealer.mk 7 #[]) [] 3 0 (some (StoredSnapshot.mk 9 3 [])) []))] [SocketPlayer.mk "sock2" none "P1" none]) "sock2" (some "S1") none "F" "P1").1.rooms.find? (fun r => r.id == "R1")).bind
        (fun r => r.players.find? (fun q => q.sessionId == "S1"))).map
        (fun q => (q.color, q.connected)) = some ((RoomPlayer.mk "S1" none "Alice" "#FF1493" false false).color, true) ∧
    (∀ g snap, (Room.mk "R1" "Room 1" "S1" [RoomPlayer.mk "S1" none "Alice" "#FF1493" false false] 4 true ["#FF1493"] false none (some (GameInstance.mk 7 (PieceDealer.mk 7 #[]) [] 3 0 (some (StoredSnapshot.mk 9 3 [])) []))).gameStarted = true → (Room.mk "R1" "Room 1" "S1" [RoomPlayer.mk "S1" none "Alice" "#FF1493" false false] 4 true ["#FF1493"] false none (some (GameInstance.mk 7 (PieceDealer.mk 7 #[]) [] 3 0 (some (StoredSnapshot.mk 9 3 [])) []))).currentGame = some g →
      g.lastStatePayload = some snap →
      Emit.gameState snap ∈ (identifyHandler (ServerState.mk [Session.mk "S1" "Alice" (some "R1") (some "#FF1493") false false none true] [Room.mk "R1" "Room 1" "S1" [RoomPlayer.mk "S1" none "Alice" "#FF1493" false false] 4 true ["#FF1493"] false none (some (GameInstance.mk 7 (PieceDealer.mk 7 #[]) [] 3 0 (some (StoredSnapshot.mk 9 3 [])) []))] [SocketPlayer.mk "sock2" none "P1" none]) "sock2" (some "S1") none "F" "P1").2)) :=
  ⟨by decide, by decide, by decide, by decide, by decide,
    c4_reconnect_within_grace (ServerState.mk [Session.mk "S1" "Alice" (some "R1") (some "#FF1493") false false none true] [Room.mk "R1" "Room 1" "S1" [RoomPlayer.mk "S1" none "Alice" "#FF1493" false false] 4 true ["#FF1493"] false none (some (GameInstance.mk 7 (PieceDealer.mk 7 #[]) [] 3 0 (some (StoredSnapshot.mk 9 3 [])) []))] [SocketPlayer.mk "sock2" none "P1" none]) "sock2" "S1" "R1" "F" "P1"
      (Session.mk "S1" "Alice" (some "R1") (some "#FF1493") false false none true) (Room.mk "R1" "Room 1" "S1" [RoomPlayer.mk "S1" none "Alice" "#FF1493" false false] 4 true ["#FF1493"] false none (some (GameInstance.mk 7 (PieceDealer.mk 7 #[]) [] 3 0 (some (StoredSnapshot.mk 9 3 [])) []))) (RoomPlayer.mk "S1" none "Alice" "#FF1493" false false)
      (by decide) (by decide) (by decide) (by decide) (by decide)⟩

/-- `pickNextHost` on a non-empty room elects one of the members. -/
theorem pickNextHost_host_mem (r : Room) (hne : r.players ≠ []) :
    ∃ q ∈ r.players, (r.pickNextHost).1.hostSessionId = q.sessionId := by
  cases hc : r.players.find? (fun p => p.connected) with
  | some w =>
    exact ⟨w, List.mem_of_find?_eq_some hc, by simp [Room.pickNextHost, hc]⟩
  | none =>
    cases hp : r.players with
    | nil => exact absurd hp hne
    | cons a t =>
      rw [hp] at hc
      refine ⟨a, List.mem_cons_self a t, ?_⟩
      simp [Room.pickNextHost, hc, hp]

/-- The effect of `removePlayer` on a found member: the member is spliced
out, its color deleted, removal succeeds, and the room id is unchanged. -/
theorem removePlayer_effect (room : Room) (sid : String) (member : RoomPlayer)
    (hmember : room.players.find? (fun q => q.sessionId == sid) = some member) :
    (room.removePlayer sid).1.players =
        room.players.eraseP (fun q => q.sessionId == sid) ∧
      (room.removePlayer sid).1.usedColors =
        room.usedColors.erase member.color ∧
      (room.removePlayer sid).2.1 = true ∧
      (room.removePlayer sid).1.id = room.id := by
  unfold Room.removePlayer
  simp only [Room.getPlayerBySession, hmember]
  split
  · exact ⟨rfl, rfl, rfl, rfl⟩
  · exact ⟨rfl, rfl, rfl, rfl⟩

/-- C5: when the grace timer fires for a session that is still a member of
its room, the member is removed (color freed, no member with that session
remains, the host re-elected among the remaining members if the removed
member was host), the room is deleted iff the removal empties it, and the
session's room fields are cleared. -/
theorem c5_grace_expiry_cleanup (st : ServerState) (sid rid : String)
    (s : Session) (room : Room) (member : RoomPlayer)
    (hst : st.sessions.find? (fun q => q.id == sid) = some s)
    (hroomid : s.roomId = some rid)
    (hgr : st.rooms.find? (fun r => r.id == rid) = some room)
    (hmember : room.players.find? (fun q => q.sessionId == sid) = some member)
    (hnodup : (room.players.map (fun q => q.sessionId)).Nodup)
    (hcinv : room.colorInvariant) :
    (room.removePlayer sid).2.1 = true ∧
    (room.removePlayer sid).1.players.find? (fun q => q.sessionId == sid) =
      none ∧
    member.color ∉ (room.removePlayer sid).1.usedColors ∧
    (sid = room.hostSessionId →
      (room.removePlayer sid).1.players = [] ∨
        ∃ q ∈ (room.removePlayer sid).1.players,
          (room.removePlayer sid).1.hostSessionId = q.sessionId) ∧
    ((finalizeSessionRoomCleanup st sid).1.rooms.find? (fun r => r.id == rid) =
      if (room.removePlayer sid).1.players = [] then none
      else some (room.removePlayer sid).1) ∧
    (((finalizeSessionRoomCleanup st sid).1.sessions.find?
        (fun q => q.id == sid)).map
        (fun q => (q.roomId, q.color, q.ready, q.disconnectTimer)) =
      some (none, none, false, false)) := by
  have hmsid : member.sessionId = sid := by
    simpa using List.find?_some hmember
  have hroomatch : (room.id == rid) = true := by
    simpa using List.find?_some hgr
  obtain ⟨heff1, heff2, heff3, heff4⟩ := removePlayer_effect room sid member hmember
  obtain ⟨l1, l2, hl, he, _⟩ :=
    find?_split (fun q : RoomPlayer => q.sessionId == sid) id hmember
  have hmap : room.players.map (fun q => q.sessionId) =
      l1.map (fun q => q.sessionId) ++ sid :: l2.map (fun q => q.sessionId) := by
    rw [hl]
    simp [hmsid]
  rw [hmap] at hnodup
  have hmid := List.nodup_middle.mp hnodup
  have hsidout : sid ∉ l1.map (fun q => q.sessionId) ++
      l2.map (fun q => q.sessionId) := (List.nodup_cons.mp hmid).1
  have hgone : (room.removePlayer sid).1.players.find?
      (fun q => q.sessionId == sid) = none := by
    rw [heff1, he]
    rw [List.find?_eq_none]
    intro x hx
    simp only [beq_iff_eq]
    intro hcontra
    exact hsidout (by
      rw [← hcontra]
      rcases List.mem_append.mp hx with h | h
      · exact List.mem_append.mpr (Or.inl (List.mem_map_of_mem _ h))
      · exact List.mem_append.mpr (Or.inr (List.mem_map_of_mem _ h)))
  have hsessfin : (finalizeSessionRoomCleanup st sid).1.sessions =
      updateFirst (fun q : Session => q.id == sid)
        (fun q : Session => { q with roomId := none, color := none, ready := false, disconnectTimer := false })
        st.sessions := by
    simp only [finalizeSessionRoomCleanup, getSession, hst, hroomid, getRoom, hgr]
  have hroomsfin : (finalizeSessionRoomCleanup st sid).1.rooms =
      if (room.removePlayer sid).1.players = [] then
        st.rooms.filter (fun r => !(r.id == rid))
      else updateFirst (fun r : Room => r.id == rid)
        (fun _ => (room.removePlayer sid).1) st.rooms := by
    simp only [finalizeSessionRoomCleanup, getSession, hst, hroomid, getRoom, hgr,
      heff3, if_true]
    split <;> rfl
  refine ⟨heff3, hgone, ?_, ?_, ?_, ?_⟩
  · rw [heff2]
    intro hcontra
    have := (List.Nodup.mem_erase_iff hcinv.1).mp hcontra
    exact this.1 rfl
  · intro hhost
    by_cases hemp : (room.removePlayer sid).1.players = []
    · exact Or.inl hemp
    · right
      have hcond : (member.sessionId == room.hostSessionId) = true := by
        simp [hmsid, hhost]
      have hbranch : (room.removePlayer sid).1 =
          (Room.pickNextHost { room with
            players := room.players.eraseP (fun q => q.sessionId == sid),
            usedColors := room.usedColors.erase member.color }).1 := by
        unfold Room.removePlayer
        simp only [Room.getPlayerBySession, hmember]
        rw [if_pos hcond]
      have hne : ({ room with
          players := room.players.eraseP (fun q => q.sessionId == sid),
          usedColors := room.usedColors.erase member.color } : Room).players ≠
          [] := by
        intro hcontra
        apply hemp
        rw [heff1]
        exact hcontra
      obtain ⟨q, hq, hqh⟩ := pickNextHost_host_mem _ hne
      refine ⟨q, ?_, ?_⟩
      · rw [heff1]
        exact hq
      · rw [hbranch]
        exact hqh
  · rw [hroomsfin]
    by_cases hemp : (room.removePlayer sid).1.players = []
    · rw [if_pos hemp, if_pos hemp]
      rw [List.find?_eq_none]
      intro x hx
      have := List.of_mem_filter hx
      simp only [Bool.not_eq_true'] at this
      simp [this]
    · rw [if_neg hemp, if_neg hemp]
      exact find?_updateFirst _ _ hgr (by simpa [heff4] using hroomatch)
  · rw [hsessfin]
    rw [find?_updateFirst _ _ hst (by simpa using List.find?_some hst)]
    rfl

/-- Witness for C5: a two-member room whose disconnected host fails to
return; the host member is removed, its color freed, the host re-elected
to the remaining connected member, and the room survives (not empty). -/
theorem c5_grace_expiry_cleanup_witness :
    (ServerState.mk [Session.mk "S1" "Al" (some "R1") (some "#FF1493") false false none true] [Room.mk "R1" "room" "S1" [RoomPlayer.mk "S1" none "Al" "#FF1493" false false, RoomPlayer.mk "S2" (some "k2") "Bo" "#00D9FF" false true] 4 false ["#FF1493", "#00D9FF"] false none none] []).sessions.find? (fun q => q.id == "S1") = some (Session.mk "S1" "Al" (some "R1") (some "#FF1493") false false none true) ∧
    (Session.mk "S1" "Al" (some "R1") (some "#FF1493") false false none true).roomId = some "R1" ∧
    (ServerState.mk [Session.mk "S1" "Al" (some "R1") (some "#FF1493") false false none true] [Room.mk "R1" "room" "S1" [RoomPlayer.mk "S1" none "Al" "#FF1493" false false, RoomPlayer.mk "S2" (some "k2") "Bo" "#00D9FF" false true] 4 false ["#FF1493", "#00D9FF"] false none none] []).rooms.find? (fun r => r.id == "R1") = some (Room.mk "R1" "room" "S1" [RoomPlayer.mk "S1" none "Al" "#FF1493" false false, RoomPlayer.mk "S2" (some "k2") "Bo" "#00D9FF" false true] 4 false ["#FF1493", "#00D9FF"] false none none) ∧
    (Room.mk "R1" "room" "S1" [RoomPlayer.mk "S1" none "Al" "#FF1493" false false, RoomPlayer.mk "S2" (some "k2") "Bo" "#00D9FF" false true] 4 false ["#FF1493", "#00D9FF"] false none none).players.find? (fun q => q.sessionId == "S1") = some (RoomPlayer.mk "S1" none "Al" "#FF1493" false false) ∧
    ((Room.mk "R1" "room" "S1" [RoomPlayer.mk "S1" none "Al" "#FF1493" false false, RoomPlayer.mk "S2" (some "k2") "Bo" "#00D9FF" false true] 4 false ["#FF1493", "#00D9FF"] false none none).players.map (fun q => q.sessionId)).Nodup ∧
    (Room.mk "R1" "room" "S1" [RoomPlayer.mk "S1" none "Al" "#FF1493" false false, RoomPlayer.mk "S2" (some "k2") "Bo" "#00D9FF" false true] 4 false ["#FF1493", "#00D9FF"] false none none).colorInvariant ∧
    (((Room.mk "R1" "room" "S1" [RoomPlayer.mk "S1" none "Al" "#FF1493" false false, RoomPlayer.mk "S2" (some "k2") "Bo" "#00D9FF" false true] 4 false ["#FF1493", "#00D9FF"] false none none).removePlayer "S1").2.1 = true ∧
    ((Room.mk "R1" "room" "S1" [RoomPlayer.mk "S1" none "Al" "#FF1493" false false, RoomPlayer.mk "S2" (some "k2") "Bo" "#00D9FF" false true] 4 false ["#FF1493", "#00D9FF"] false none none).removePlayer "S1").1.players.find? (fun q => q.sessionId == "S1") = none ∧
    (RoomPlayer.mk "S1" none "Al" "#FF1493" false false).color ∉ ((Room.mk "R1" "room" "S1" [RoomPlayer.mk "S1" none "Al" "#FF1493" false false, RoomPlayer.mk "S2" (some "k2") "Bo" "#00D9FF" false true] 4 false ["#FF1493", "#00D9FF"] false none none).removePlayer "S1").1.usedColors ∧
    ("S1" = (Room.mk "R1" "room" "S1" [RoomPlayer.mk "S1" none "Al" "#FF1493" false false, RoomPlayer.mk "S2" (some "k2") "Bo" "#00D9FF" false true] 4 false ["#FF1493", "#00D9FF"] false none none).hostSessionId →
      ((Room.mk "R1" "room" "S1" [RoomPlayer.mk "S1" none "Al" "#FF1493" false false, RoomPlayer.mk "S2" (some "k2") "Bo" "#00D9FF" false true] 4 false ["#FF1493", "#00D9FF"] false none none).removePlayer "S1").1.players = [] ∨
        ∃ q ∈ ((Room.mk "R1" "room" "S1" [RoomPlayer.mk "S1" none "Al" "#FF1493" false false, RoomPlayer.mk "S2" (some "k2") "Bo" "#00D9FF" false true] 4 false ["#FF1493", "#00D9FF"] false none none).removePlayer "S1").1.players, ((Room.mk "R1" "room" "S1" [RoomPlayer.mk "S1" none "Al" "#FF1493" false false, RoomPlayer.mk "S2" (some "k2") "Bo" "#00D9FF" false true] 4 false ["#FF1493", "#00D9FF"] false none none).removePlayer "S1").1.hostSessionId = q.sessionId) ∧
    ((finalizeSessionRoomCleanup (ServerState.mk [Session.mk "S1" "Al" (some "R1") (some "#FF1493") false false none true] [Room.mk "R1" "room" "S1" [RoomPlayer.mk "S1" none "Al" "#FF1493" false false, RoomPlayer.mk "S2" (some "k2") "Bo" "#00D9FF" false true] 4 false ["#FF1493", "#00D9FF"] false none none] []) "S1").1.rooms.find? (fun r => r.id == "R1") =
      if ((Room.mk "R1" "room" "S1" [RoomPlayer.mk "S1" none "Al" "#FF1493" false false, RoomPlayer.mk "S2" (some "k2") "Bo" "#00D9FF" false true] 4 false ["#FF1493", "#00D9FF"] false none none).removePlayer "S1").1.players = [] then none else some ((Room.mk "R1" "room" "S1" [RoomPlayer.mk "S1" none "Al" "#FF1493" false false, RoomPlayer.mk "S2" (some "k2") "Bo" "#00D9FF" false true] 4 false ["#FF1493", "#00D9FF"] false none none).removePlayer "S1").1) ∧
    (((finalizeSessionRoomCleanup (ServerState.mk [Session.mk "S1" "Al" (some "R1") (some "#FF1493") false false none true] [Room.mk "R1" "room" "S1" [RoomPlayer.mk "S1" none "Al" "#FF1493" false false, RoomPlayer.mk "S2" (some "k2") "Bo" "#00D9FF" false true] 4 false ["#FF1493", "#00D9FF"] false none none] []) "S1").1.sessions.find? (fun q => q.id == "S1")).map
        (fun q => (q.roomId, q.color, q.ready, q.disconnectTimer)) =
      some (none, none, false, false))) :=
  ⟨by decide, by decide, by decide, by decide, by decide,
    ⟨by decide, by decide⟩,
    c5_grace_expiry_cleanup (ServerState.mk [Session.mk "S1" "Al" (some "R1") (some "#FF1493") false false none true] [Room.mk "R1" "room" "S1" [RoomPlayer.mk "S1" none "Al" "#FF1493" false false, RoomPlayer.mk "S2" (some "k2") "Bo" "#00D9FF" false true] 4 false ["#FF1493", "#00D9FF"] false none none] []) "S1" "R1" (Session.mk "S1" "Al" (some "R1") (some "#FF1493") false false none true) (Room.mk "R1" "room" "S1" [RoomPlayer.mk "S1" none "Al" "#FF1493" false false, RoomPlayer.mk "S2" (some "k2") "Bo" "#00D9FF" false true] 4 false ["#FF1493", "#00D9FF"] false none none) (RoomPlayer.mk "S1" none "Al" "#FF1493" false false)
      (by decide) (by decide) (by decide) (by decide) (by decide)
      ⟨by decide, by decide⟩⟩
